import Mathlib

/-!
Verification of the three CI scripts in `.github/scripts/`:
`analyze-performance.py`, `requirement-compliance.py` and
`generate-dashboard.py`.  Python floats are embedded as exact fractions
(`PyFloat` below), Python strings as `String`, raising code as
`Option`-valued functions.
-/

set_option maxRecDepth 4000

/-! ## Exact fractions standing in for Python floats

All float arithmetic the scripts perform on the analysed values is exact
(subtraction, multiplication, division of decimally-parsed numbers), so
Python floats are embedded as exact fractions.  Lean's `ℚ` normalizes
through `Nat.gcd`, which the kernel cannot unfold, so an unnormalized
fraction representation is used instead: the value is `n / d`, and every
value the embedding constructs has a nonzero denominator. -/

structure PyFloat where
  n : ℤ
  d : ℤ
deriving DecidableEq, Repr

/-- Make the denominator nonnegative without changing the value. -/
def PyFloat.norm (x : PyFloat) : PyFloat := if x.d < 0 then ⟨-x.n, -x.d⟩ else x

def PyFloat.sub (a b : PyFloat) : PyFloat := ⟨a.n * b.d - b.n * a.d, a.d * b.d⟩

def PyFloat.mul (a b : PyFloat) : PyFloat := ⟨a.n * b.n, a.d * b.d⟩

def PyFloat.div (a b : PyFloat) : PyFloat := ⟨a.n * b.d, a.d * b.n⟩

/-- Python `x == 0.0` (value equality; the denominator is nonzero). -/
def PyFloat.isZero (x : PyFloat) : Bool := x.n == 0

/-- Python `x < 0.0`. -/
def PyFloat.isNeg (x : PyFloat) : Bool := x.norm.n < 0

/-- Python `a <= b`. -/
def PyFloat.ble (a b : PyFloat) : Bool :=
  let a := a.norm
  let b := b.norm
  a.n * b.d ≤ b.n * a.d

instance (m : ℕ) : OfNat PyFloat m := ⟨⟨(m : ℤ), 1⟩⟩

instance : Sub PyFloat := ⟨PyFloat.sub⟩

instance : Mul PyFloat := ⟨PyFloat.mul⟩

instance : Div PyFloat := ⟨PyFloat.div⟩

/-! ## Generic string helpers shared by all three scripts -/

/-- Decimal digit character for `n < 10`. -/
def digitChar (n : ℕ) : Char := Char.ofNat (48 + n)

/-- Decimal digits of a natural number, most significant first; structural
recursion on a fuel bound so that the kernel can evaluate it. -/
def natCharsAux : ℕ → ℕ → List Char
  | 0, _ => []
  | fuel + 1, n =>
    if n < 10 then [digitChar n]
    else natCharsAux fuel (n / 10) ++ [digitChar (n % 10)]

/-- Decimal rendering of a natural number (the output of Python's
`str`/f-string formatting on a nonnegative `int`). -/
def natChars (n : ℕ) : List Char := natCharsAux (n + 1) n

def natStr (n : ℕ) : String := String.mk (natChars n)

/-- Numeric value of a list of decimal digit characters
(Python `float(digit-string)` on the regex captures). -/
def natOfDigits (ds : List Char) : ℕ :=
  ds.foldl (fun a c => 10 * a + (c.toNat - 48)) 0

/-- Round a fraction to the nearest integer, ties to even: the rounding
Python's fixed-precision float formatting applies.  `Int.fdiv` is floor
division, and the remainder comparison with `1/2` is done by
cross-multiplication against the (normalized, positive) denominator. -/
def roundHalfEven (x : PyFloat) : ℤ :=
  let x := x.norm
  let f : ℤ := Int.fdiv x.n x.d
  let t : ℤ := 2 * (x.n - f * x.d)
  if t < x.d then f
  else if x.d < t then f + 1
  else if f % 2 = 0 then f else f + 1

/-- Python `f"{x:+.1f}"`: sign always shown, one fractional digit. -/
def fmtPlus1 (q : PyFloat) : String :=
  let m : ℕ := (roundHalfEven (q * 10)).natAbs
  (if q.isNeg then "-" else "+") ++ natStr (m / 10) ++ "." ++ natStr (m % 10)

/-- Python `f"{x:.2f}"`: two fractional digits, sign only when negative. -/
def fmt2 (q : PyFloat) : String :=
  let m : ℕ := (roundHalfEven (q * 100)).natAbs
  (if q.isNeg then "-" else "") ++ natStr (m / 100) ++ "." ++
    (if m % 100 < 10 then "0" else "") ++ natStr (m % 100)

/-- Python `f"{x}"` on a float.  Exact for integer-valued floats (the only
targets `parse_requirements` produces: `float` of a digit string renders as
`"123.0"`).  Non-integral values are approximated with one rounded fractional
digit; Python instead prints the shortest round-tripping decimal of the
underlying double, which has no exact counterpart for a general fraction. -/
def fmtPyFloat (x : PyFloat) : String :=
  let x := x.norm
  if x.n % x.d = 0 then
    let k : ℤ := x.n / x.d
    (if k < 0 then "-" else "") ++ natStr k.natAbs ++ ".0"
  else
    (if x.isNeg then "-" else "") ++ natStr ((roundHalfEven ⟨x.n.natAbs, x.d⟩ * 10).natAbs / 10) ++
      "." ++ natStr ((roundHalfEven ⟨x.n.natAbs, x.d⟩ * 10).natAbs % 10)

/-- Substring containment of `m` in `l` (Python's `m in l` on `str`),
checking a prefix match at every suffix position. -/
def containsL (m : List Char) : List Char → Bool
  | [] => m.isEmpty
  | c :: t => m.isPrefixOf (c :: t) || containsL m t

/-- Python `sub in s` for strings. -/
def containsS (s sub : String) : Bool := containsL sub.data s.data

/-- Python `s.lower()` (ASCII case folding, which covers every string the
scripts compare). -/
def strLower (s : String) : String := String.mk (s.data.map Char.toLower)

/-- Python `'\n'.join(lines)`. -/
def joinNL : List String → String
  | [] => ""
  | [x] => x
  | x :: y :: rest => x ++ "\n" ++ joinNL (y :: rest)

/-! ## `analyze-performance.py`: data model -/

structure PerformanceRequirement where
  name : String
  metric : String
  target : PyFloat
  unit : String
  priority : String
deriving DecidableEq, Repr

structure BenchmarkResult where
  benchmark : String
  mode : String
  score : PyFloat
  unit : String
  error : PyFloat
deriving DecidableEq, Repr

/-- One element of the `results` list inside a compliance record. -/
structure ComplianceRow where
  benchmark : String
  value : String
  passes : Bool
  margin : String
deriving DecidableEq, Repr

/-- The per-requirement dict built by `_check_requirement_compliance`. -/
structure ComplianceEntry where
  requirement : String
  target : String
  status : String
  message : String
  results : List ComplianceRow
deriving DecidableEq, Repr

structure PerfSummary where
  total_requirements : ℕ
  passed : ℕ
  failed : ℕ
  not_tested : ℕ
deriving DecidableEq, Repr

structure ComplianceReport where
  overall_status : String
  requirements : List ComplianceEntry
  summary : PerfSummary
deriving DecidableEq, Repr

/-! ## `analyze-performance.py`: operations -/

/-- `PerformanceAnalyzer._get_unit_for_requirement`. -/
def _get_unit_for_requirement (req_type : String) : String :=
  if req_type = "response_time" then "ms"
  else if req_type = "throughput" then "ops/sec"
  else if req_type = "memory_usage" then "MB"
  else if req_type = "cache_hit_ratio" then "%"
  else if req_type = "concurrent_ops" then "ops"
  else "unknown"

/-- `PerformanceAnalyzer._normalize_value`: the fixed unit-conversion table,
identity for pairs outside it. -/
def _normalize_value (value : PyFloat) (from_unit to_unit : String) : PyFloat :=
  if from_unit = "ns" ∧ to_unit = "ms" then value / 1000000
  else if from_unit = "μs" ∧ to_unit = "ms" then value / 1000
  else if from_unit = "ms" ∧ to_unit = "ms" then value
  else if from_unit = "ops/s" ∧ to_unit = "ops/sec" then value
  else if from_unit = "MB" ∧ to_unit = "MB" then value
  else if from_unit = "B" ∧ to_unit = "MB" then value / (1024 * 1024)
  else value

/-- `PerformanceAnalyzer._evaluate_result`: lower-is-better metrics compare
with `≤`, everything else (including unknown metrics) with `≥`. -/
def _evaluate_result (req : PerformanceRequirement) (res : BenchmarkResult) : Bool :=
  let result_value := _normalize_value res.score res.unit req.unit
  if req.metric = "response_time" ∨ req.metric = "memory_usage" then
    result_value.ble req.target
  else if req.metric = "throughput" ∨ req.metric = "cache_hit_ratio" ∨
      req.metric = "concurrent_ops" then
    req.target.ble result_value
  else
    req.target.ble result_value

/-- `PerformanceAnalyzer._calculate_margin`.  The Python code divides by
`requirement.target` unguarded; a zero target raises `ZeroDivisionError`,
modelled as `none`. -/
def _calculate_margin (req : PerformanceRequirement) (res : BenchmarkResult) :
    Option String :=
  let result_value := _normalize_value res.score res.unit req.unit
  if req.target.isZero then none
  else
    let margin : PyFloat :=
      if req.metric = "response_time" ∨ req.metric = "memory_usage" then
        ((req.target - result_value) / req.target) * 100
      else
        ((result_value - req.target) / req.target) * 100
    some (fmtPlus1 margin ++ "%")

/-- The benchmark-name keyword table of `_check_requirement_compliance`,
with the `.get(metric, [metric])` default. -/
def benchmark_patterns (metric : String) : List String :=
  if metric = "response_time" then ["readRange", "latency"]
  else if metric = "throughput" then ["throughput", "ops"]
  else if metric = "memory_usage" then ["memory", "allocation"]
  else if metric = "cache_hit_ratio" then ["cache", "hit"]
  else if metric = "concurrent_ops" then ["concurrent", "thread"]
  else [metric]

/-- Result selection: case-insensitive substring containment of any keyword
in the benchmark name. -/
def relevant_results (results : List BenchmarkResult) (req : PerformanceRequirement) :
    List BenchmarkResult :=
  results.filter fun res =>
    (benchmark_patterns req.metric).any fun p =>
      containsS (strLower res.benchmark) (strLower p)

/-- The loop body of `_check_requirement_compliance` over the relevant
results: builds the rows and the `overall_pass` flag; `none` when a margin
computation raises. -/
def checkRows (req : PerformanceRequirement) : List BenchmarkResult →
    Option (List ComplianceRow × Bool)
  | [] => some ([], true)
  | res :: rest =>
    match _calculate_margin req res with
    | none => none
    | some mg =>
      match checkRows req rest with
      | none => none
      | some (rows, ok) =>
        let meets := _evaluate_result req res
        some (⟨res.benchmark, fmt2 res.score ++ " " ++ res.unit, meets, mg⟩ :: rows,
              meets && ok)

/-- The `f"{requirement.target} {requirement.unit}"` string. -/
def fmtTarget (req : PerformanceRequirement) : String :=
  fmtPyFloat req.target ++ " " ++ req.unit

/-- `PerformanceAnalyzer._check_requirement_compliance`. -/
def _check_requirement_compliance (results : List BenchmarkResult)
    (req : PerformanceRequirement) : Option ComplianceEntry :=
  let rel := relevant_results results req
  if rel.isEmpty then
    some ⟨req.name, fmtTarget req, "NOT_TESTED",
          "No relevant benchmark results found", []⟩
  else
    match checkRows req rel with
    | none => none
    | some (rows, overall_pass) =>
      some ⟨req.name, fmtTarget req,
            if overall_pass then "PASS" else "FAIL",
            if overall_pass then "All benchmarks meet requirement"
            else "Some benchmarks fail requirement",
            rows⟩

/-- The per-requirement loop of `analyze_compliance`; `none` when any
check raises. -/
def mapCheck (results : List BenchmarkResult) :
    List PerformanceRequirement → Option (List ComplianceEntry)
  | [] => some []
  | r :: rs =>
    match _check_requirement_compliance results r, mapCheck results rs with
    | some e, some es => some (e :: es)
    | _, _ => none

/-- `PerformanceAnalyzer.analyze_compliance`: the running `overall_status`
update (`FAIL` as soon as a high-priority requirement fails, initial value
`PASS`) is expressed as an `any` over the requirement/entry pairs, and the
summary counters as counts over the entries. -/
def analyze_compliance (reqs : List PerformanceRequirement)
    (results : List BenchmarkResult) : Option ComplianceReport :=
  match mapCheck results reqs with
  | none => none
  | some entries =>
    some { overall_status :=
             if (reqs.zip entries).any
                 (fun p => p.2.status == "FAIL" && p.1.priority == "high")
             then "FAIL" else "PASS"
           requirements := entries
           summary :=
             { total_requirements := reqs.length
               passed := entries.countP (·.status == "PASS")
               failed := entries.countP (·.status == "FAIL")
               not_tested :=
                 entries.countP (fun e => !(e.status == "PASS") && !(e.status == "FAIL")) } }

/-! ## `requirement-compliance.py`: data model

The requirement dicts built by `RequirementParser` carry further free-text
fields (stimulus, environment, objective, …) that `ComplianceAnalyzer` never
reads when computing statuses; only the fields the analysis consumes are
modelled.  `type` is a Lean keyword, so the dict key `type` becomes `rtype`. -/

structure AggRequirement where
  name : String
  rtype : String
  priority : ℕ
  status : String
deriving DecidableEq, Repr

/-- A loaded performance report (`load_performance_reports` list element). -/
structure PerfReport where
  file : String
  status : String
  content : String
deriving DecidableEq, Repr

structure FunctionalCategory where
  status : String
  total : ℕ
  implemented : ℕ
  details : String
deriving DecidableEq, Repr

structure QualityCategory where
  status : String
  total : ℕ
  verified : ℕ
  failed : ℕ
  details : String
deriving DecidableEq, Repr

structure PerformanceCategory where
  status : String
  total : ℕ
  passed : ℕ
  failed : ℕ
  details : String
deriving DecidableEq, Repr

/-- The category results together with the derived overall status
(`analyze_compliance` of `ComplianceAnalyzer`; risks, recommendations and
the summary counters are not consumed by any claim and are omitted). -/
structure AggReport where
  overall_status : String
  functional : FunctionalCategory
  quality : QualityCategory
  performance : PerformanceCategory
deriving DecidableEq, Repr

/-! ## `requirement-compliance.py`: operations -/

/-- `ComplianceAnalyzer._extract_performance_status`. -/
def _extract_performance_status (report_content : String) : String :=
  if containsS report_content "**Overall Status**: PASS" then "PASS"
  else if containsS report_content "**Overall Status**: FAIL" then "FAIL"
  else "UNKNOWN"

/-- One element appended by `load_performance_reports` for a matched file. -/
def loadPerfReport (file content : String) : PerfReport :=
  ⟨file, _extract_performance_status content, content⟩

/-- `ComplianceAnalyzer._analyze_functional_compliance`: the status is the
constant `'PLANNED'`. -/
def _analyze_functional_compliance (reqs : List AggRequirement) : FunctionalCategory :=
  let functional_reqs := reqs.filter (·.rtype == "functional")
  { status := "PLANNED"
    total := functional_reqs.length
    implemented := 0
    details := "Functional requirements are defined in roadmap and tracked via GitHub issues" }

/-- The name-substring placeholder rule of `_analyze_quality_compliance`
assigning a status to one quality requirement. -/
def qualityStatusFor (name : String) : String :=
  if containsS name "Thread Safety" || containsS name "Response Time" then "verified"
  else if containsS name "Virtual Thread" || containsS name "ByteBuffer Pool" then "not_implemented"
  else "partial"

/-- `ComplianceAnalyzer._analyze_quality_compliance`: `failed_count` stays at
its initial `0`, and the status expression is kept exactly as written
(`'PASS' if failed_count == 0 else 'FAIL' if failed_count > 0 else 'PARTIAL'`). -/
def _analyze_quality_compliance (reqs : List AggRequirement) : QualityCategory :=
  let quality_reqs := reqs.filter (·.rtype == "quality")
  let verified_count := quality_reqs.countP (fun r => qualityStatusFor r.name == "verified")
  let failed_count : ℕ := 0
  { status :=
      if failed_count = 0 then "PASS"
      else if failed_count > 0 then "FAIL"
      else "PARTIAL"
    total := quality_reqs.length
    verified := verified_count
    failed := failed_count
    details := "Quality requirements verification: " ++ natStr verified_count ++
      " verified, " ++ natStr failed_count ++ " failed" }

/-- `ComplianceAnalyzer._analyze_performance_compliance`. -/
def _analyze_performance_compliance (performance_reports : List PerfReport) :
    PerformanceCategory :=
  if performance_reports.isEmpty then
    { status := "NOT_TESTED", total := 0, passed := 0, failed := 0
      details := "No performance reports available" }
  else
    let passed_reports := performance_reports.countP (·.status == "PASS")
    let failed_reports := performance_reports.countP (·.status == "FAIL")
    { status :=
        if failed_reports = 0 ∧ passed_reports > 0 then "PASS"
        else if failed_reports > 0 then "FAIL"
        else "UNKNOWN"
      total := performance_reports.length
      passed := passed_reports
      failed := failed_reports
      details := "Performance compliance: " ++ natStr passed_reports ++
        " passed, " ++ natStr failed_reports ++ " failed" }

/-- The overall-status determination at the end of
`ComplianceAnalyzer.analyze_compliance` over the list of category statuses. -/
def aggregateOverall (category_statuses : List String) : String :=
  if category_statuses.all (· == "PASS") then "PASS"
  else if category_statuses.any (· == "FAIL") then "FAIL"
  else "PARTIAL"

/-- `ComplianceAnalyzer.analyze_compliance` (the status-relevant part). -/
def agg_analyze_compliance (reqs : List AggRequirement) (reports : List PerfReport) :
    AggReport :=
  let functional := _analyze_functional_compliance reqs
  let quality := _analyze_quality_compliance reqs
  let performance := _analyze_performance_compliance reports
  { overall_status := aggregateOverall [functional.status, quality.status, performance.status]
    functional := functional
    quality := quality
    performance := performance }

/-- The exit-code convention at the end of `main` in
`requirement-compliance.py`: 1 on FAIL, 2 on PARTIAL, 0 otherwise. -/
def agg_exit_code (overall_status : String) : ℕ :=
  if overall_status = "FAIL" then 1
  else if overall_status = "PARTIAL" then 2
  else 0


/-! ## `analyze-performance.py`: `parse_requirements`

The five extraction regexes have the shape `LIT1 .*? LIT2 (\\d+) LIT3`
(with `re.IGNORECASE`, and `.` not matching a newline) except the
`concurrent_ops` one, `(\\d+,?\\d*)\\+ concurrent operations`.  Case
insensitivity is modelled by lower-casing the content and using lower-case
literals; the digit captures are unaffected by case.  The greedy `\\d+`
needs no backtracking because no trailing literal starts with a digit. -/

/-- Match `LIT2 (\\d+) LIT3` at the start of `l`; returns the captured
number and the remainder after the match. -/
def tailNum (lit2 lit3 : List Char) (l : List Char) : Option (ℕ × List Char) :=
  if lit2.isPrefixOf l then
    let r := l.drop lit2.length
    let ds := r.takeWhile Char.isDigit
    if ds.isEmpty then none
    else
      let r2 := r.drop ds.length
      if lit3.isPrefixOf r2 then some (natOfDigits ds, r2.drop lit3.length)
      else none
  else none

/-- The lazy `.*?` before `LIT2`: try the tail pattern here first, else
consume one character, which must not be a newline. -/
def lazyScan (lit2 lit3 : List Char) : List Char → Option (ℕ × List Char)
  | [] => none
  | c :: rest =>
    match tailNum lit2 lit3 (c :: rest) with
    | some res => some res
    | none => if c = '\n' then none else lazyScan lit2 lit3 rest

/-- `re.findall` over the content for one `LIT1 .*? LIT2 (\\d+) LIT3`
pattern: scan position by position, resuming after the end of each
(non-overlapping) match; the fuel starts at the content length. -/
def findAllNum (lit1 lit2 lit3 : List Char) : ℕ → List Char → List ℕ
  | 0, _ => []
  | _, [] => []
  | fuel + 1, c :: rest =>
    if lit1.isPrefixOf (c :: rest) then
      match lazyScan lit2 lit3 ((c :: rest).drop lit1.length) with
      | some (v, rem) => v :: findAllNum lit1 lit2 lit3 fuel rem
      | none => findAllNum lit1 lit2 lit3 fuel rest
    else findAllNum lit1 lit2 lit3 fuel rest

def concLit : List Char := "+ concurrent operations".data

/-- Match `(\\d+,?\\d*)\\+ concurrent operations` at the start of `l`:
greedy digits, an optional comma-and-digits group (tried greedily first,
then dropped — deeper backtracking cannot help because the following
literal `+` is neither a digit nor a comma), then the literal tail.  The
captured value is the digits with the comma stripped
(`float(match.replace(',', ''))`). -/
def concTry (l : List Char) : Option (ℕ × List Char) :=
  let d1 := l.takeWhile Char.isDigit
  if d1.isEmpty then none
  else
    let r := l.drop d1.length
    match r with
    | ',' :: r2 =>
      let d2 := r2.takeWhile Char.isDigit
      let r3 := r2.drop d2.length
      if concLit.isPrefixOf r3 then some (natOfDigits (d1 ++ d2), r3.drop concLit.length)
      else if concLit.isPrefixOf r then some (natOfDigits d1, r.drop concLit.length)
      else none
    | _ =>
      if concLit.isPrefixOf r then some (natOfDigits d1, r.drop concLit.length)
      else none

def findAllConc : ℕ → List Char → List ℕ
  | 0, _ => []
  | _, [] => []
  | fuel + 1, c :: rest =>
    match concTry (c :: rest) with
    | some (v, rem) => v :: findAllConc fuel rem
    | none => findAllConc fuel rest

/-- The requirement record appended for one regex match: name and metric are
the requirement type, the unit comes from the fixed table, the priority is
always `'high'`. -/
def mkPerfReq (req_type : String) (v : ℕ) : PerformanceRequirement :=
  ⟨req_type, req_type, ⟨(v : ℤ), 1⟩, _get_unit_for_requirement req_type, "high"⟩

/-- `PerformanceAnalyzer.parse_requirements`, iterating the pattern table in
its insertion order. -/
def parse_requirements (content : String) : List PerformanceRequirement :=
  let lc := (strLower content).data
  ((findAllNum "response time".data "< ".data "ms".data lc.length lc).map
    (mkPerfReq "response_time")) ++
  ((findAllNum "throughput".data "> ".data " requests/second".data lc.length lc).map
    (mkPerfReq "throughput")) ++
  ((findAllNum "memory usage".data "< ".data "mb".data lc.length lc).map
    (mkPerfReq "memory_usage")) ++
  ((findAllNum "cache hit ratio".data "> ".data "%".data lc.length lc).map
    (mkPerfReq "cache_hit_ratio")) ++
  ((findAllConc lc.length lc).map (mkPerfReq "concurrent_ops"))


/-! ## `analyze-performance.py`: `generate_report` -/

/-- The status-emoji dict subscript in `generate_report`.  Statuses outside
the three keys raise `KeyError` in Python; they are unreachable for
analyzer-produced records (the status is always PASS, FAIL or NOT_TESTED),
and the model returns the warning emoji for them. -/
def statusEmoji (status : String) : String :=
  if status = "PASS" then "✅"
  else if status = "FAIL" then "❌"
  else "⚠️"

/-- The report lines appended for one requirement record. -/
def entryLines (e : ComplianceEntry) : List String :=
  ["### " ++ e.requirement ++ " " ++ statusEmoji e.status, "",
   "**Target**: " ++ e.target,
   "**Status**: " ++ e.status,
   "**Message**: " ++ e.message, ""] ++
  (if e.results.isEmpty then [] else
    ["**Benchmark Results**:", "",
     "| Benchmark | Value | Passes | Margin |",
     "|-----------|-------|--------|--------|"] ++
    e.results.map (fun r =>
      "| " ++ r.benchmark ++ " | " ++ r.value ++ " | " ++
        (if r.passes then "✅" else "❌") ++ " | " ++ r.margin ++ " |") ++
    [""])

/-- The full line list `generate_report` joins with newlines. -/
def reportLines (d : ComplianceReport) : List String :=
  ["# Performance Requirement Compliance Report", "",
   "**Overall Status**: " ++ d.overall_status, "",
   "## Summary", "",
   "- **Total Requirements**: " ++ natStr d.summary.total_requirements,
   "- **Passed**: " ++ natStr d.summary.passed ++ " ✅",
   "- **Failed**: " ++ natStr d.summary.failed ++ " ❌",
   "- **Not Tested**: " ++ natStr d.summary.not_tested ++ " ⚠️",
   "", "## Detailed Results", ""] ++
  (d.requirements.map entryLines).flatten ++
  (if (d.requirements.filter (·.status == "FAIL")).isEmpty then [] else
    ["## Recommendations", "",
     "The following requirements are not being met:", ""] ++
    (d.requirements.filter (·.status == "FAIL")).map
      (fun e => "- **" ++ e.requirement ++ "**: " ++ e.message) ++
    ["",
     "Consider implementing performance optimizations or reviewing requirement targets."])

/-- `PerformanceAnalyzer.generate_report` (the written markdown text). -/
def generate_report (d : ComplianceReport) : String := joinNL (reportLines d)

/-- The five requirement types `parse_requirements` can produce. -/
def metricNames : List String :=
  ["response_time", "throughput", "memory_usage", "cache_hit_ratio", "concurrent_ops"]

/-- The shape of every requirement `parse_requirements` builds (name equals
the metric, a known metric, the unit from the fixed table), plus a nonzero
target so that the margin computation cannot raise. -/
def ParseShaped (r : PerformanceRequirement) : Prop :=
  r.name = r.metric ∧ r.metric ∈ metricNames ∧
  r.unit = _get_unit_for_requirement r.metric ∧ r.target.isZero = false

/-- Benchmark names and units that cannot forge the markdown wire format:
they contain neither `*` nor `#`. -/
def SanitizedResult (res : BenchmarkResult) : Prop :=
  ('*' : Char) ∉ res.benchmark.data ∧ ('#' : Char) ∉ res.benchmark.data ∧
  ('*' : Char) ∉ res.unit.data ∧ ('#' : Char) ∉ res.unit.data


/-- Character-class facts about one emitted benchmark-results row that the
wire-format analysis needs: no `*` or `#` in any interpolated field. -/
def RowGood (r : ComplianceRow) : Prop :=
  (('*' : Char) ∉ r.benchmark.data ∧ ('#' : Char) ∉ r.benchmark.data) ∧
  (('*' : Char) ∉ r.value.data ∧ ('#' : Char) ∉ r.value.data) ∧
  (('*' : Char) ∉ r.margin.data ∧ ('#' : Char) ∉ r.margin.data)

/-- The invariants of every compliance record `analyze_compliance` produces
from shaped requirements and sanitized results. -/
def EntryGood (e : ComplianceEntry) : Prop :=
  e.requirement ∈ metricNames ∧
  (('*' : Char) ∉ e.target.data ∧ ('#' : Char) ∉ e.target.data) ∧
  (e.status = "PASS" ∨ e.status = "FAIL" ∨ e.status = "NOT_TESTED") ∧
  (e.message = "All benchmarks meet requirement" ∨
    e.message = "Some benchmarks fail requirement" ∨
    e.message = "No relevant benchmark results found") ∧
  (e.status = "FAIL" → e.message = "Some benchmarks fail requirement") ∧
  ∀ r ∈ e.results, RowGood r


/-! ## `generate-dashboard.py`: parsing the compliance report

Each extractor models one `re.search`/`re.findall` call.  Case folding and
whitespace classes are those of ASCII text, which covers the reports the
aggregate analyzer writes. -/

/-- Python `\s` on ASCII text. -/
def isSpaceChar (c : Char) : Bool :=
  c = ' ' || c = '\t' || c = '\n' || c = '\r' || c = '\x0b' || c = '\x0c'

/-- Python `str.strip()`. -/
def pyStrip (s : String) : String :=
  String.mk (((s.data.dropWhile isSpaceChar).reverse.dropWhile isSpaceChar).reverse)

/-- Match `\s*([^\n]+)` at `l` with the engine's greedy backtracking:
whitespace is consumed greedily and handed back one character at a time
until a nonempty newline-free capture can start.  Returns the capture and
the remaining input after it. -/
def capLineWs : List Char → Option (List Char × List Char)
  | [] => none
  | c :: rest =>
    if isSpaceChar c then
      match capLineWs rest with
      | some p => some p
      | none =>
        if c = '\n' then none
        else some ((c :: rest).takeWhile (· ≠ '\n'), (c :: rest).dropWhile (· ≠ '\n'))
    else some ((c :: rest).takeWhile (· ≠ '\n'), (c :: rest).dropWhile (· ≠ '\n'))

/-- `re.search` for a pattern `LIT\s*([^\n]+)`: first position where the
whole pattern matches wins; when the literal matches but no capture can
follow, the search continues at the next position. -/
def searchLineCapture (lit : List Char) : List Char → Option (List Char)
  | [] => none
  | c :: rest =>
    if lit.isPrefixOf (c :: rest) then
      match capLineWs ((c :: rest).drop lit.length) with
      | some (cap, _) => some cap
      | none => searchLineCapture lit rest
    else searchLineCapture lit rest

/-- Match `\s*(\d+)` at `l`: greedy whitespace then at least one digit;
no backtracking is needed because whitespace characters are not digits. -/
def capNumWs (l : List Char) : Option ℕ :=
  let r := l.dropWhile isSpaceChar
  let ds := r.takeWhile Char.isDigit
  if ds.isEmpty then none else some (natOfDigits ds)

/-- `re.search` for a pattern `LIT\s*(\d+)`. -/
def searchNum (lit : List Char) : List Char → Option ℕ
  | [] => none
  | c :: rest =>
    if lit.isPrefixOf (c :: rest) then
      match capNumWs ((c :: rest).drop lit.length) with
      | some v => some v
      | none => searchNum lit rest
    else searchNum lit rest

/-- Match `\s*\n\n` at `l` (greedy with backtracking); returns the
remainder after the blank line. -/
def wsThenBlank : List Char → Option (List Char)
  | [] => none
  | c :: rest =>
    if isSpaceChar c then
      match wsThenBlank rest with
      | some r => some r
      | none =>
        if c = '\n' ∧ rest.head? = some '\n' then some (rest.drop 1) else none
    else none

/-- The lazy `re.DOTALL` capture `(.*?)(?=##|$)`: everything up to the
first `##`, the end of the input, or the position just before a final
newline (how `$` behaves without `re.MULTILINE`). -/
def lazyUntilHH : List Char → List Char
  | [] => []
  | c :: rest =>
    if ("##".data).isPrefixOf (c :: rest) then []
    else if c = '\n' ∧ rest = [] then []
    else c :: lazyUntilHH rest

/-- `re.search` of a section pattern `LIT\s*\n\n(.*?)(?=##|$)` with
`re.DOTALL`. -/
def searchSection (lit : List Char) : List Char → Option (List Char)
  | [] => none
  | c :: rest =>
    if lit.isPrefixOf (c :: rest) then
      match wsThenBlank ((c :: rest).drop lit.length) with
      | some r => some (lazyUntilHH r)
      | none => searchSection lit rest
    else searchSection lit rest

/-- Python `\w` on ASCII text. -/
def isWordChar (c : Char) : Bool := c.isAlphanum || c = '_'

/-- The lazy `([^#]*?)(?=###|$)` capture; fails when a `#` that is not the
start of `###` (or the end) is reached before the lookahead holds. -/
def lazyUntilHHH : List Char → Option (List Char)
  | [] => some []
  | c :: rest =>
    if ("###".data).isPrefixOf (c :: rest) then some []
    else if c = '\n' ∧ rest = [] then some []
    else if c = '#' then none
    else (lazyUntilHHH rest).map (c :: ·)

/-- Match `### (\w+) Requirements ([^#]*?)(?=###|$)` at the start of `l`
(the greedy `\w+` needs no backtracking: the following literal begins with
a space).  Returns the two captures and the remainder after the match. -/
def catTry (l : List Char) : Option ((String × List Char) × List Char) :=
  if ("### ".data).isPrefixOf l then
    let r := l.drop 4
    let w := r.takeWhile isWordChar
    if w.isEmpty then none
    else
      let r2 := r.drop w.length
      if (" Requirements ".data).isPrefixOf r2 then
        match lazyUntilHHH (r2.drop 14) with
        | some cap => some ((String.mk w, cap), (r2.drop 14).drop cap.length)
        | none => none
      else none
  else none

/-- `re.findall` of the category pattern over the section content. -/
def catScan : ℕ → List Char → List (String × List Char)
  | 0, _ => []
  | _, [] => []
  | fuel + 1, c :: rest =>
    match catTry (c :: rest) with
    | some (res, rem) => res :: catScan fuel rem
    | none => catScan fuel rest

structure DashCategory where
  name : String
  status : String
  details : String
deriving DecidableEq, Repr

/-- The dict entry built for one category match: lower-cased name, and the
status/details searches inside the category block with their defaults. -/
def catOf (p : String × List Char) : DashCategory :=
  ⟨strLower p.1,
   ((searchLineCapture ("**Status**:".data) p.2).map String.mk).getD "UNKNOWN",
   ((searchLineCapture ("**Details**:".data) p.2).map String.mk).getD ""⟩

/-- Python dict assignment `categories[name] = …`: overwrite in place when
the key exists, append otherwise. -/
def dictInsertCat (m : List DashCategory) (c : DashCategory) : List DashCategory :=
  if m.any (·.name == c.name) then
    m.map fun x => if x.name == c.name then c else x
  else m ++ [c]

/-- `DashboardGenerator._extract_categories`. -/
def _extract_categories (content : List Char) : List DashCategory :=
  match searchSection ("## Compliance by Category".data) content with
  | none => []
  | some sec => ((catScan sec.length sec).map catOf).foldl dictInsertCat []

/-- The continuation of the risk pattern after its lazy title capture:
`\n\n\*\*Severity\*\*:\s*([^\n]+)\n\*\*Description\*\*:\s*([^\n]+)`.
(The engine could in principle backtrack across the severity capture when
the description literal fails; a failure is modelled as no match at this
position, which is what happens on every input the report writer emits.) -/
def riskCont (l : List Char) : Option (List Char × List Char × List Char) :=
  if (("\n\n**Severity**:").data).isPrefixOf l then
    match capLineWs (l.drop 15) with
    | some (sev, r1) =>
      if (("\n**Description**:").data).isPrefixOf r1 then
        match capLineWs (r1.drop 17) with
        | some (des, r2) => some (sev, des, r2)
        | none => none
      else none
    | none => none
  else none

/-- The lazy `([^#]*?)` title capture followed by `riskCont`. -/
def riskLazy : List Char → Option (List Char × List Char × List Char × List Char)
  | [] => none
  | c :: rest =>
    match riskCont (c :: rest) with
    | some (sev, des, rem) => some ([], sev, des, rem)
    | none =>
      if c = '#' then none
      else (riskLazy rest).map fun p => (c :: p.1, p.2.1, p.2.2.1, p.2.2.2)

/-- Match the full risk pattern at the start of `l`. -/
def riskTry (l : List Char) : Option ((List Char × List Char × List Char) × List Char) :=
  if ("### ".data).isPrefixOf l then
    match riskLazy (l.drop 4) with
    | some (t, sev, des, rem) => some ((t, sev, des), rem)
    | none => none
  else none

/-- `re.findall` of the risk pattern over the section content. -/
def riskScan : ℕ → List Char → List (List Char × List Char × List Char)
  | 0, _ => []
  | _, [] => []
  | fuel + 1, c :: rest =>
    match riskTry (c :: rest) with
    | some (res, rem) => res :: riskScan fuel rem
    | none => riskScan fuel rest

structure DashRisk where
  title : String
  severity : String
  description : String
deriving DecidableEq, Repr

def riskOf (t : List Char × List Char × List Char) : DashRisk :=
  ⟨pyStrip (String.mk t.1), pyStrip (String.mk t.2.1), pyStrip (String.mk t.2.2)⟩

/-- `DashboardGenerator._extract_risks`. -/
def _extract_risks (content : List Char) : List DashRisk :=
  match searchSection ("## Risk Assessment".data) content with
  | none => []
  | some sec => (riskScan sec.length sec).map riskOf

/-- Match `\d+\.\s*([^\n]+)` at the start of `l` (the greedy `\d+` needs no
backtracking: `.` is not a digit). -/
def recTry (l : List Char) : Option (List Char × List Char) :=
  let ds := l.takeWhile Char.isDigit
  if ds.isEmpty then none
  else
    match l.drop ds.length with
    | '.' :: r =>
      match capLineWs r with
      | some (cap, rest) => some (cap, rest)
      | none => none
    | _ => none

/-- `re.findall` of the numbered-recommendation pattern. -/
def recScan : ℕ → List Char → List String
  | 0, _ => []
  | _, [] => []
  | fuel + 1, c :: rest =>
    match recTry (c :: rest) with
    | some (cap, rem) => String.mk cap :: recScan fuel rem
    | none => recScan fuel rest

/-- `DashboardGenerator._extract_recommendations`. -/
def _extract_recommendations (content : List Char) : List String :=
  match searchSection ("## Recommendations".data) content with
  | none => []
  | some sec => recScan sec.length sec

structure DashSummary where
  total_requirements : ℕ
  implemented : ℕ
  verified : ℕ
  planned : ℕ
  not_started : ℕ
deriving DecidableEq, Repr

/-- `DashboardGenerator._extract_summary` (defaults to 0 per field). -/
def _extract_summary (content : List Char) : DashSummary :=
  ⟨(searchNum ("Total Requirements**:".data) content).getD 0,
   (searchNum ("Implemented**:".data) content).getD 0,
   (searchNum ("Verified**:".data) content).getD 0,
   (searchNum ("Planned**:".data) content).getD 0,
   (searchNum ("Not Started**:".data) content).getD 0⟩

/-- `DashboardGenerator._extract_timestamp`: the captured `**Generated**:`
line, or the current time (`datetime.now().isoformat()`, passed in as
`now`) when the pattern does not match — the nondeterministic fallback. -/
def _extract_timestamp (content : String) (now : String) : String :=
  ((searchLineCapture ("**Generated**:".data) content.data).map String.mk).getD now

/-- `DashboardGenerator._extract_overall_status`. -/
def _extract_overall_status (content : String) : String :=
  ((searchLineCapture ("**Overall Status**:".data) content.data).map String.mk).getD
    "UNKNOWN"

structure DashData where
  timestamp : String
  overall_status : String
  summary : DashSummary
  categories : List DashCategory
  risks : List DashRisk
  recommendations : List String
deriving DecidableEq, Repr

/-- `DashboardGenerator.parse_compliance_report`; `now` stands for the
wall-clock value `datetime.now().isoformat()` would produce during the run. -/
def parse_compliance_report (content : String) (now : String) : DashData :=
  ⟨_extract_timestamp content now,
   _extract_overall_status content,
   _extract_summary content.data,
   _extract_categories content.data,
   _extract_risks content.data,
   _extract_recommendations content.data⟩


/-! ## `generate-dashboard.py`: rendering the HTML dashboard -/

/-- The CSS text of `_get_css_styles`. -/
def cssStyles : String :=
  "\n        * \x7b\n            margin: 0;\n            padding: 0;\n            box-sizing: border-box;\n        \x7d\n        \n        body \x7b\n            font-family: \x27Segoe UI\x27, Tahoma, Geneva, Verdana, sans-serif;\n            background: linear-gradient(135deg, #667eea 0%, #764ba2 100%);\n            min-height: 100vh;\n            color: #333;\n        \x7d\n        \n        .container \x7b\n            max-width: 1200px;\n            margin: 0 auto;\n            padding: 20px;\n        \x7d\n        \n        .header \x7b\n            background: white;\n            border-radius: 15px;\n            padding: 30px;\n            margin-bottom: 30px;\n            box-shadow: 0 10px 30px rgba(0,0,0,0.1);\n            text-align: center;\n        \x7d\n        \n        .header h1 \x7b\n            color: #2c3e50;\n            margin-bottom: 10px;\n            font-size: 2.5rem;\n        \x7d\n        \n        .status-badge \x7b\n            display: inline-block;\n            padding: 8px 20px;\n            border-radius: 25px;\n            font-weight: bold;\n            font-size: 1.1rem;\n            margin-top: 10px;\n        \x7d\n        \n        .status-pass \x7b background: #2ecc71; color: white; \x7d\n        .status-fail \x7b background: #e74c3c; color: white; \x7d\n        .status-partial \x7b background: #f39c12; color: white; \x7d\n        .status-unknown \x7b background: #95a5a6; color: white; \x7d\n        \n        .summary-grid \x7b\n            display: grid;\n            grid-template-columns: repeat(auto-fit, minmax(250px, 1fr));\n            gap: 20px;\n            margin-bottom: 30px;\n        \x7d\n        \n        .summary-card \x7b\n            background: white;\n            border-radius: 15px;\n            padding: 25px;\n            box-shadow: 0 8px 25px rgba(0,0,0,0.1);\n            text-align: center;\n            transition: transform 0.3s ease;\n        \x7d\n        \n        .summary-card:hover \x7b\n            transform: translateY(-5px);\n        \x7d\n        \n        .summary-card h3 \x7b\n            color: #2c3e50;\n            margin-bottom: 15px;\n            font-size: 1.1rem;\n        \x7d\n        \n        .summary-card .number \x7b\n            font-size: 3rem;\n            font-weight: bold;\n            color: #3498db;\n            display: block;\n        \x7d\n        \n        .charts-grid \x7b\n            display: grid;\n            grid-template-columns: repeat(auto-fit, minmax(400px, 1fr));\n            gap: 30px;\n            margin-bottom: 30px;\n        \x7d\n        \n        .chart-container \x7b\n            background: white;\n            border-radius: 15px;\n            padding: 25px;\n            box-shadow: 0 8px 25px rgba(0,0,0,0.1);\n        \x7d\n        \n        .chart-container h3 \x7b\n            color: #2c3e50;\n            margin-bottom: 20px;\n            text-align: center;\n        \x7d\n        \n        .category-grid \x7b\n            display: grid;\n            grid-template-columns: repeat(auto-fit, minmax(300px, 1fr));\n            gap: 20px;\n            margin-bottom: 30px;\n        \x7d\n        \n        .category-card \x7b\n            background: white;\n            border-radius: 15px;\n            padding: 25px;\n            box-shadow: 0 8px 25px rgba(0,0,0,0.1);\n        \x7d\n        \n        .category-card h3 \x7b\n            color: #2c3e50;\n            margin-bottom: 15px;\n            display: flex;\n            align-items: center;\n            gap: 10px;\n        \x7d\n        \n        .risks-section, .recommendations-section \x7b\n            background: white;\n            border-radius: 15px;\n            padding: 30px;\n            margin-bottom: 30px;\n            box-shadow: 0 8px 25px rgba(0,0,0,0.1);\n        \x7d\n        \n        .risk-item \x7b\n            background: #fff5f5;\n            border-left: 4px solid #e74c3c;\n            padding: 15px;\n            margin-bottom: 15px;\n            border-radius: 0 8px 8px 0;\n        \x7d\n        \n        .risk-high \x7b border-left-color: #e74c3c; background: #fff5f5; \x7d\n        .risk-medium \x7b border-left-color: #f39c12; background: #fefcf3; \x7d\n        .risk-low \x7b border-left-color: #2ecc71; background: #f8fff8; \x7d\n        \n        .recommendation-item \x7b\n            background: #f8f9fa;\n            padding: 15px;\n            margin-bottom: 10px;\n            border-radius: 8px;\n            border-left: 4px solid #3498db;\n        \x7d\n        \n        .footer \x7b\n            text-align: center;\n            color: #fff;\n            margin-top: 30px;\n            opacity: 0.8;\n        \x7d\n        \n        .emoji \x7b\n            font-size: 1.2em;\n        \x7d\n        "

/-- `_generate_charts` (static). -/
def chartsSection : String :=
  "\n        <div class=\"charts-grid\">\n            <div class=\"chart-container\">\n                <h3>📊 Requirements Status Distribution</h3>\n                <canvas id=\"statusChart\" width=\"400\" height=\"200\"></canvas>\n            </div>\n            <div class=\"chart-container\">\n                <h3>🎯 Category Compliance</h3>\n                <canvas id=\"categoryChart\" width=\"400\" height=\"200\"></canvas>\n            </div>\n        </div>\n        "

/-- `_generate_footer` (static). -/
def footerSection : String :=
  "\n        <div class=\"footer\">\n            <p>🤖 Generated automatically by the Tileverse Range Reader requirement verification system</p>\n        </div>\n        "

/-- Python `str.title()` on ASCII text. -/
def pyTitleAux : Bool → List Char → List Char
  | _, [] => []
  | prevAlpha, c :: rest =>
    if c.isAlpha then
      (if prevAlpha then c.toLower else c.toUpper) :: pyTitleAux true rest
    else c :: pyTitleAux false rest

def pyTitle (s : String) : String := String.mk (pyTitleAux false s.data)

/-- Python `repr` of a list of strings (single-quoted elements). -/
def renderPyStrList (xs : List String) : String :=
  "[" ++ String.intercalate ", " (xs.map (fun s => "\x27" ++ s ++ "\x27")) ++ "]"

/-- Python `repr` of a list of ints. -/
def renderPyNatList (xs : List ℕ) : String :=
  "[" ++ String.intercalate ", " (xs.map natStr) ++ "]"

/-- The category icon map of `_generate_category_details`. -/
def catEmoji (name : String) : String :=
  if name = "functional" then "⚙️"
  else if name = "quality" then "🎯"
  else if name = "performance" then "🚀"
  else if name = "security" then "🔒"
  else "📋"

/-- The status icon map of `_generate_category_details`. -/
def catStatusEmoji (status : String) : String :=
  if status = "PASS" then "✅"
  else if status = "FAIL" then "❌"
  else if status = "PARTIAL" then "🟡"
  else if status = "PLANNED" then "📋"
  else if status = "NOT_TESTED" then "⚠️"
  else "❓"

/-- The severity icon map of `_generate_risks_section` (on the lower-cased
severity). -/
def sevEmoji (severity : String) : String :=
  if severity = "high" then "🔴"
  else if severity = "medium" then "🟡"
  else if severity = "low" then "🟢"
  else "❓"

/-- The per-category percentage of `_generate_javascript`. -/
def catStatusVal (status : String) : ℕ :=
  if status = "PASS" then 100
  else if status = "FAIL" then 0
  else if status = "PARTIAL" then 50
  else 25

/-- `_generate_header`. -/
def _generate_header (d : DashData) : String :=
  "\n        <div class=\"header\">\n            <h1>🎯 Requirement Compliance Dashboard</h1>\n            <p>Last Updated: " ++
    (d.timestamp) ++
    "</p>\n            <div class=\"status-badge " ++
    (("status-" ++ strLower d.overall_status)) ++
    "\">\n                Overall Status: " ++
    (d.overall_status) ++
    "\n            </div>\n        </div>\n        "

/-- `_generate_summary_cards`. -/
def _generate_summary_cards (d : DashData) : String :=
  "\n        <div class=\"summary-grid\">\n            <div class=\"summary-card\">\n                <h3>📋 Total Requirements</h3>\n                <span class=\"number\">" ++
    (natStr d.summary.total_requirements) ++
    "</span>\n            </div>\n            <div class=\"summary-card\">\n                <h3>✅ Implemented</h3>\n                <span class=\"number\">" ++
    (natStr d.summary.implemented) ++
    "</span>\n            </div>\n            <div class=\"summary-card\">\n                <h3>🔍 Verified</h3>\n                <span class=\"number\">" ++
    (natStr d.summary.verified) ++
    "</span>\n            </div>\n            <div class=\"summary-card\">\n                <h3>📅 Planned</h3>\n                <span class=\"number\">" ++
    (natStr d.summary.planned) ++
    "</span>\n            </div>\n            <div class=\"summary-card\">\n                <h3>⏸️ Not Started</h3>\n                <span class=\"number\">" ++
    (natStr d.summary.not_started) ++
    "</span>\n            </div>\n        </div>\n        "

/-- The card emitted for one category. -/
def categoryCard (c : DashCategory) : String :=
  "\n            <div class=\"category-card\">\n                <h3>" ++
    (catEmoji c.name) ++
    " " ++
    (pyTitle c.name) ++
    " Requirements " ++
    (catStatusEmoji c.status) ++
    "</h3>\n                <p><strong>Status:</strong> " ++
    (c.status) ++
    "</p>\n                <p><strong>Details:</strong> " ++
    (c.details) ++
    "</p>\n            </div>\n            "

/-- `_generate_category_details`. -/
def _generate_category_details (d : DashData) : String :=
  "\n        <div class=\"category-grid\">\n            " ++
    (String.join (d.categories.map categoryCard)) ++
    "\n        </div>\n        "

/-- The block emitted for one risk. -/
def riskItem (r : DashRisk) : String :=
  "\n            <div class=\"risk-item risk-" ++
    (strLower r.severity) ++
    "\">\n                <h4>" ++
    (sevEmoji (strLower r.severity)) ++
    " " ++
    (r.title) ++
    "</h4>\n                <p><strong>Severity:</strong> " ++
    (pyTitle r.severity) ++
    "</p>\n                <p>" ++
    (r.description) ++
    "</p>\n            </div>\n            "

/-- `_generate_risks_section`. -/
def _generate_risks_section (d : DashData) : String :=
  if d.risks.isEmpty then
    "\n            <div class=\"risks-section\">\n                <h2>🛡️ Risk Assessment</h2>\n                <p style=\"color: #2ecc71; font-weight: bold;\">✅ No significant risks identified</p>\n            </div>\n            "
  else
    "\n        <div class=\"risks-section\">\n            <h2>⚠️ Risk Assessment</h2>\n            " ++
    (String.join (d.risks.map riskItem)) ++
    "\n        </div>\n        "

/-- The block emitted for one recommendation (Python `enumerate`
starts the rendered index at 1; `List.enum` is 0-based). -/
def recItem (p : ℕ × String) : String :=
  "\n            <div class=\"recommendation-item\">\n                <strong>" ++
    (natStr (p.1 + 1)) ++
    ".</strong> " ++
    (p.2) ++
    "\n            </div>\n            "

/-- `_generate_recommendations_section`. -/
def _generate_recommendations_section (d : DashData) : String :=
  if d.recommendations.isEmpty then
    "\n            <div class=\"recommendations-section\">\n                <h2>💡 Recommendations</h2>\n                <p style=\"color: #2ecc71; font-weight: bold;\">✅ No specific recommendations at this time</p>\n            </div>\n            "
  else
    "\n        <div class=\"recommendations-section\">\n            <h2>💡 Recommendations</h2>\n            " ++
    (String.join ((d.recommendations.enum).map recItem)) ++
    "\n        </div>\n        "

/-- `_generate_javascript`. -/
def _generate_javascript (d : DashData) : String :=
  "\n        // Status Distribution Chart\n        const statusCtx = document.getElementById(\x27statusChart\x27).getContext(\x272d\x27);\n        new Chart(statusCtx, \x7b\n            type: \x27doughnut\x27,\n            data: \x7b\n                labels: [\x27Implemented\x27, \x27Verified\x27, \x27Planned\x27, \x27Not Started\x27],\n                datasets: [\x7b\n                    data: " ++
    (renderPyNatList [d.summary.implemented, d.summary.verified, d.summary.planned, d.summary.not_started]) ++
    ",\n                    backgroundColor: [\n                        \x27#2ecc71\x27,\n                        \x27#3498db\x27,\n                        \x27#f39c12\x27,\n                        \x27#e74c3c\x27\n                    ],\n                    borderWidth: 2,\n                    borderColor: \x27#fff\x27\n                \x7d]\n            \x7d,\n            options: \x7b\n                responsive: true,\n                maintainAspectRatio: false,\n                plugins: \x7b\n                    legend: \x7b\n                        position: \x27bottom\x27\n                    \x7d\n                \x7d\n            \x7d\n        \x7d);\n        \n        // Category Compliance Chart\n        const categoryCtx = document.getElementById(\x27categoryChart\x27).getContext(\x272d\x27);\n        new Chart(categoryCtx, \x7b\n            type: \x27bar\x27,\n            data: \x7b\n                labels: " ++
    (renderPyStrList (d.categories.map (fun c => c.name))) ++
    ",\n                datasets: [\x7b\n                    label: \x27Compliance %\x27,\n                    data: " ++
    (renderPyNatList (d.categories.map (fun c => catStatusVal c.status))) ++
    ",\n                    backgroundColor: [\n                        \x27#3498db\x27,\n                        \x27#2ecc71\x27,\n                        \x27#f39c12\x27,\n                        \x27#e74c3c\x27\n                    ],\n                    borderWidth: 1\n                \x7d]\n            \x7d,\n            options: \x7b\n                responsive: true,\n                maintainAspectRatio: false,\n                scales: \x7b\n                    y: \x7b\n                        beginAtZero: true,\n                        max: 100,\n                        ticks: \x7b\n                            callback: function(value) \x7b\n                                return value + \x27%\x27;\n                            \x7d\n                        \x7d\n                    \x7d\n                \x7d,\n                plugins: \x7b\n                    legend: \x7b\n                        display: false\n                    \x7d\n                \x7d\n            \x7d\n        \x7d);\n        "

/-- `_generate_html`: the complete dashboard page. -/
def _generate_html (d : DashData) : String :=
  "<!DOCTYPE html>\n<html lang=\"en\">\n<head>\n    <meta charset=\"UTF-8\">\n    <meta name=\"viewport\" content=\"width=device-width, initial-scale=1.0\">\n    <title>Requirement Compliance Dashboard</title>\n    <style>\n        " ++
    (cssStyles) ++
    "\n    </style>\n    <script src=\"https://cdn.jsdelivr.net/npm/chart.js\"></script>\n</head>\n<body>\n    <div class=\"container\">\n        " ++
    (_generate_header d) ++
    "\n        " ++
    (_generate_summary_cards d) ++
    "\n        " ++
    (chartsSection) ++
    "\n        " ++
    (_generate_category_details d) ++
    "\n        " ++
    (_generate_risks_section d) ++
    "\n        " ++
    (_generate_recommendations_section d) ++
    "\n        " ++
    (footerSection) ++
    "\n    </div>\n    \n    <script>\n        " ++
    (_generate_javascript d) ++
    "\n    </script>\n</body>\n</html>"

/-- `DashboardGenerator.generate_dashboard` composed with
`parse_compliance_report`: the full pipeline from report text (and the
wall-clock string `now`) to the written HTML. -/
def dashPipeline (now : String) (content : String) : String :=
  _generate_html (parse_compliance_report content now)

/-! ## Theorems -/

/-- C2: for a `response_time` requirement with target 100 and unit `ms` and a
matching benchmark result with score 50 and unit `ms`, `_evaluate_result`
returns `true` and `_calculate_margin` returns `"+50.0%"`; with score 150 it
returns `false` and `"-50.0%"` — the margin sign is flipped for the
lower-is-better metric. -/
theorem C2_evaluate_and_margin :
    _evaluate_result ⟨"response_time", "response_time", 100, "ms", "high"⟩
      ⟨"latencyTest", "avgt", 50, "ms", 0⟩ = true ∧
    _calculate_margin ⟨"response_time", "response_time", 100, "ms", "high"⟩
      ⟨"latencyTest", "avgt", 50, "ms", 0⟩ = some "+50.0%" ∧
    _evaluate_result ⟨"response_time", "response_time", 100, "ms", "high"⟩
      ⟨"latencyTest", "avgt", 150, "ms", 0⟩ = false ∧
    _calculate_margin ⟨"response_time", "response_time", 100, "ms", "high"⟩
      ⟨"latencyTest", "avgt", 150, "ms", 0⟩ = some "-50.0%" := by
  decide

/-- C5: `_analyze_quality_compliance` always reports a failed count of 0 and a
status that is `PASS` or `PARTIAL` and never `FAIL`, for every parsed input. -/
theorem C5_quality_never_fails (reqs : List AggRequirement) :
    (_analyze_quality_compliance reqs).failed = 0 ∧
    (_analyze_quality_compliance reqs).status ≠ "FAIL" ∧
    ((_analyze_quality_compliance reqs).status = "PASS" ∨
      (_analyze_quality_compliance reqs).status = "PARTIAL") := by
  have hs : (_analyze_quality_compliance reqs).status = "PASS" := rfl
  exact ⟨rfl, by rw [hs]; decide, Or.inl hs⟩

/-- C9: `_analyze_functional_compliance` always returns status `PLANNED`, so
the all-`PASS` condition of `analyze_compliance` is unsatisfiable: the overall
status is always `FAIL` or `PARTIAL`, never `PASS`, and the process exit code
is never 0. -/
theorem C9_functional_planned_never_pass
    (reqs : List AggRequirement) (reports : List PerfReport) :
    (_analyze_functional_compliance reqs).status = "PLANNED" ∧
    (agg_analyze_compliance reqs reports).overall_status ≠ "PASS" ∧
    ((agg_analyze_compliance reqs reports).overall_status = "FAIL" ∨
      (agg_analyze_compliance reqs reports).overall_status = "PARTIAL") ∧
    agg_exit_code (agg_analyze_compliance reqs reports).overall_status ≠ 0 := by
  refine ⟨rfl, ?_, ?_, ?_⟩ <;>
    simp only [agg_analyze_compliance, aggregateOverall, _analyze_functional_compliance,
      List.all_cons, List.all_nil, List.any_cons, List.any_nil, agg_exit_code] <;>
    split_ifs <;> simp_all

/-- C3: the aggregate overall status is `PASS` iff all three category
statuses are `PASS`, `FAIL` iff at least one is `FAIL`, and `PARTIAL` in
every remaining case; in particular (PASS,PASS,PASS) gives PASS,
(PASS,FAIL,PASS) gives FAIL and (PASS,PLANNED,NOT_TESTED) gives PARTIAL. -/
theorem C3_aggregate_overall_rule (f q p : String)
    (reqs : List AggRequirement) (reports : List PerfReport) :
    ((agg_analyze_compliance reqs reports).overall_status =
      aggregateOverall [(_analyze_functional_compliance reqs).status,
        (_analyze_quality_compliance reqs).status,
        (_analyze_performance_compliance reports).status]) ∧
    (aggregateOverall [f, q, p] = "PASS" ↔ f = "PASS" ∧ q = "PASS" ∧ p = "PASS") ∧
    (aggregateOverall [f, q, p] = "FAIL" ↔ f = "FAIL" ∨ q = "FAIL" ∨ p = "FAIL") ∧
    (aggregateOverall [f, q, p] = "PARTIAL" ↔
      ¬(f = "PASS" ∧ q = "PASS" ∧ p = "PASS") ∧
        ¬(f = "FAIL" ∨ q = "FAIL" ∨ p = "FAIL")) ∧
    aggregateOverall ["PASS", "PASS", "PASS"] = "PASS" ∧
    aggregateOverall ["PASS", "FAIL", "PASS"] = "FAIL" ∧
    aggregateOverall ["PASS", "PLANNED", "NOT_TESTED"] = "PARTIAL" := by
  refine ⟨rfl, ?_, ?_, ?_, by decide, by decide, by decide⟩ <;>
  · simp only [aggregateOverall, List.all_cons, List.all_nil, List.any_cons, List.any_nil,
      Bool.and_true, Bool.or_false, Bool.and_eq_true, Bool.or_eq_true, beq_iff_eq]
    split_ifs with h1 h2 <;> simp_all

/-- C4 counterexample: as stated the claim is false on the code — the empty
report list yields status `NOT_TESTED`, not `UNKNOWN`, and a report text
containing both markers extracts to `PASS` although it contains the `FAIL`
marker. -/
theorem C4_counterexample :
    (_analyze_performance_compliance []).status = "NOT_TESTED" ∧
    (_analyze_performance_compliance []).status ≠ "UNKNOWN" ∧
    _extract_performance_status
      "**Overall Status**: PASS and **Overall Status**: FAIL" = "PASS" ∧
    containsS "**Overall Status**: PASS and **Overall Status**: FAIL"
      "**Overall Status**: FAIL" = true := by
  decide

/-- C4 (amended): for every nonempty list of loaded reports the category
status is `PASS` iff some report has status `PASS` and none has `FAIL`,
`FAIL` iff some report has status `FAIL`, `UNKNOWN` otherwise; an individual
report's status is `PASS` iff its text contains the `PASS` marker, `FAIL`
iff it contains the `FAIL` marker but not the `PASS` one, `UNKNOWN`
otherwise; the empty list yields `NOT_TESTED`. -/
theorem C4_performance_category (reports : List PerfReport) (hne : reports ≠ []) :
    ((_analyze_performance_compliance reports).status = "PASS" ↔
      (∃ r ∈ reports, r.status = "PASS") ∧ ∀ r ∈ reports, r.status ≠ "FAIL") ∧
    ((_analyze_performance_compliance reports).status = "FAIL" ↔
      ∃ r ∈ reports, r.status = "FAIL") ∧
    ((_analyze_performance_compliance reports).status = "UNKNOWN" ↔
      (∀ r ∈ reports, r.status ≠ "PASS") ∧ ∀ r ∈ reports, r.status ≠ "FAIL") ∧
    (∀ file content, (loadPerfReport file content).status =
      _extract_performance_status content) ∧
    (∀ content : String,
      (_extract_performance_status content = "PASS" ↔
        containsS content "**Overall Status**: PASS" = true) ∧
      (_extract_performance_status content = "FAIL" ↔
        containsS content "**Overall Status**: FAIL" = true ∧
          containsS content "**Overall Status**: PASS" = false) ∧
      (_extract_performance_status content = "UNKNOWN" ↔
        containsS content "**Overall Status**: PASS" = false ∧
          containsS content "**Overall Status**: FAIL" = false)) ∧
    (_analyze_performance_compliance []).status = "NOT_TESTED" := by
  have hie : reports.isEmpty = false := by simp [hne]
  have hstat : (_analyze_performance_compliance reports).status =
      (if reports.countP (·.status == "FAIL") = 0 ∧ reports.countP (·.status == "PASS") > 0
        then "PASS"
       else if reports.countP (·.status == "FAIL") > 0 then "FAIL" else "UNKNOWN") := by
    simp [_analyze_performance_compliance, hie]
  refine ⟨?_, ?_, ?_, fun file content => rfl, fun content => ?_, by decide⟩
  · rw [hstat]; split_ifs with h1 h2 <;>
      simp_all [List.countP_eq_zero, List.countP_pos_iff]
  · rw [hstat]; split_ifs with h1 h2 <;>
      simp_all [List.countP_eq_zero, List.countP_pos_iff]
  · rw [hstat]; split_ifs with h1 h2 <;>
      simp_all [List.countP_eq_zero, List.countP_pos_iff]
  · unfold _extract_performance_status
    split_ifs with h1 h2 <;> simp_all

/-- C4 witness for the amended theorem, at a single loaded passing report. -/
theorem C4_performance_category_witness :
    ([loadPerfReport "r.md" "**Overall Status**: PASS"] ≠ ([] : List PerfReport)) ∧
    ((_analyze_performance_compliance [loadPerfReport "r.md" "**Overall Status**: PASS"]).status = "PASS" ↔
      (∃ r ∈ [loadPerfReport "r.md" "**Overall Status**: PASS"], r.status = "PASS") ∧
        ∀ r ∈ [loadPerfReport "r.md" "**Overall Status**: PASS"], r.status ≠ "FAIL") := by
  refine ⟨by decide, (C4_performance_category _ (by decide)).1⟩

/-- C7: the conversion table of `_normalize_value` — ns→ms divides by 10^6,
μs→ms by 10^3, B→MB by 2^20, the identity pairs and every unit pair outside
the table return the value unchanged, and normalizing ns→ms followed by
ms→ms equals the single ns→ms normalization. -/
theorem C7_normalize_units (x : PyFloat) (u v : String)
    (h : ¬((u = "ns" ∧ v = "ms") ∨ (u = "μs" ∧ v = "ms") ∨ (u = "ms" ∧ v = "ms") ∨
      (u = "ops/s" ∧ v = "ops/sec") ∨ (u = "MB" ∧ v = "MB") ∨ (u = "B" ∧ v = "MB"))) :
    _normalize_value x "ns" "ms" = x / 1000000 ∧
    _normalize_value x "μs" "ms" = x / 1000 ∧
    _normalize_value x "B" "MB" = x / 1048576 ∧
    _normalize_value x "ms" "ms" = x ∧
    _normalize_value x "MB" "MB" = x ∧
    _normalize_value x "ops/s" "ops/sec" = x ∧
    _normalize_value x u v = x ∧
    _normalize_value (_normalize_value x "ns" "ms") "ms" "ms" = _normalize_value x "ns" "ms" := by
  have h1024 : (1024 : PyFloat) * 1024 = 1048576 := by decide
  push_neg at h
  refine ⟨by simp [_normalize_value], by simp [_normalize_value],
    by simp [_normalize_value, h1024], by simp [_normalize_value],
    by simp [_normalize_value], by simp [_normalize_value], ?_, by simp [_normalize_value]⟩
  unfold _normalize_value
  rw [if_neg, if_neg, if_neg, if_neg, if_neg, if_neg]
  · exact fun hc => h.2.2.2.2.2 hc.1 hc.2
  · exact fun hc => h.2.2.2.2.1 hc.1 hc.2
  · exact fun hc => h.2.2.2.1 hc.1 hc.2
  · exact fun hc => h.2.2.1 hc.1 hc.2
  · exact fun hc => h.2.1 hc.1 hc.2
  · exact fun hc => h.1 hc.1 hc.2

/-- C7 witness at a concrete value and a unit pair outside the table. -/
theorem C7_normalize_units_witness :
    (¬((("kg" : String) = "ns" ∧ ("s" : String) = "ms") ∨ ("kg" = "μs" ∧ "s" = "ms") ∨
      ("kg" = "ms" ∧ "s" = "ms") ∨ ("kg" = "ops/s" ∧ "s" = "ops/sec") ∨
      ("kg" = "MB" ∧ "s" = "MB") ∨ ("kg" = "B" ∧ "s" = "MB"))) ∧
    _normalize_value ⟨7, 2⟩ "kg" "s" = ⟨7, 2⟩ := by
  refine ⟨by decide, (C7_normalize_units ⟨7, 2⟩ "kg" "s" (by decide)).2.2.2.2.2.2.1⟩

/-- C10: the division by `requirement.target` in `_calculate_margin` is
unguarded.  For every requirement with nonzero target the margin is a
formatted percentage string; but `parse_requirements` accepts a zero target
(a document containing 'Response Time < 0ms'), and for such a requirement
with a matching benchmark result the margin computation divides by zero and
the analysis raises (modelled as `none`) instead of producing a report. -/
theorem C10_unguarded_margin_division (req : PerformanceRequirement)
    (res : BenchmarkResult) (h : req.target.isZero = false) :
    (_calculate_margin req res).isSome = true ∧
    parse_requirements "Response Time < 0ms" =
      [⟨"response_time", "response_time", ⟨0, 1⟩, "ms", "high"⟩] ∧
    _calculate_margin ⟨"response_time", "response_time", ⟨0, 1⟩, "ms", "high"⟩
      ⟨"latencyTest", "avgt", 150, "ms", 0⟩ = none ∧
    _check_requirement_compliance [⟨"latencyTest", "avgt", 150, "ms", 0⟩]
      ⟨"response_time", "response_time", ⟨0, 1⟩, "ms", "high"⟩ = none ∧
    analyze_compliance [⟨"response_time", "response_time", ⟨0, 1⟩, "ms", "high"⟩]
      [⟨"latencyTest", "avgt", 150, "ms", 0⟩] = none := by
  refine ⟨?_, by decide, by decide, by decide, by decide⟩
  simp [_calculate_margin, h]

/-- C10 witness at a nonzero-target requirement. -/
theorem C10_unguarded_margin_division_witness :
    ((⟨"response_time", "response_time", ⟨100, 1⟩, "ms", "high"⟩ :
        PerformanceRequirement).target.isZero = false) ∧
    (_calculate_margin ⟨"response_time", "response_time", ⟨100, 1⟩, "ms", "high"⟩
      ⟨"latencyTest", "avgt", 150, "ms", 0⟩).isSome = true :=
  ⟨by decide, (C10_unguarded_margin_division _ _ (by decide)).1⟩

/-- C1 counterexample: a zero-target requirement built by
`parse_requirements` with a matching result that fails `_evaluate_result`
makes `_check_requirement_compliance` raise (none) rather than return the
status `FAIL` the claim demands. -/
theorem C1_counterexample :
    (relevant_results [⟨"readRangeBench", "avgt", 150, "ms", 0⟩]
      ⟨"response_time", "response_time", ⟨0, 1⟩, "ms", "high"⟩).isEmpty = false ∧
    _evaluate_result ⟨"response_time", "response_time", ⟨0, 1⟩, "ms", "high"⟩
      ⟨"readRangeBench", "avgt", 150, "ms", 0⟩ = false ∧
    _check_requirement_compliance [⟨"readRangeBench", "avgt", 150, "ms", 0⟩]
      ⟨"response_time", "response_time", ⟨0, 1⟩, "ms", "high"⟩ = none := by
  decide

/-- Totality and pass-iff characterization of the `checkRows` loop when the
target is nonzero. -/
theorem checkRows_total (req : PerformanceRequirement)
    (h : req.target.isZero = false) (l : List BenchmarkResult) :
    ∃ pr, checkRows req l = some pr ∧
      (pr.2 = true ↔ ∀ b ∈ l, _evaluate_result req b = true) := by
  induction l with
  | nil => exact ⟨([], true), rfl, by simp⟩
  | cons b rest ih =>
    obtain ⟨⟨rows, ok⟩, hrec, hok⟩ := ih
    have hsome : (_calculate_margin req b).isSome = true := by
      simp [_calculate_margin, h]
    obtain ⟨mg, hmg⟩ := Option.isSome_iff_exists.mp hsome
    refine ⟨(⟨b.benchmark, fmt2 b.score ++ " " ++ b.unit, _evaluate_result req b, mg⟩ :: rows,
      _evaluate_result req b && ok), ?_, ?_⟩
    · simp [checkRows, hmg, hrec]
    · simp only [Bool.and_eq_true, List.forall_mem_cons]
      rw [hok]

/-- Totality and status characterization of `_check_requirement_compliance`
when the target is nonzero. -/
theorem check_total (req : PerformanceRequirement)
    (h : req.target.isZero = false) (results : List BenchmarkResult) :
    ∃ e, _check_requirement_compliance results req = some e ∧
      ((relevant_results results req).isEmpty = true → e.status = "NOT_TESTED") ∧
      ((relevant_results results req).isEmpty = false →
        (e.status = "PASS" ∨ e.status = "FAIL") ∧
        (e.status = "PASS" ↔
          ∀ b ∈ relevant_results results req, _evaluate_result req b = true)) := by
  by_cases hie : (relevant_results results req).isEmpty = true
  · refine ⟨⟨req.name, fmtTarget req, "NOT_TESTED",
      "No relevant benchmark results found", []⟩,
      by simp [_check_requirement_compliance, hie], fun _ => rfl, ?_⟩
    intro hc; rw [hie] at hc; cases hc
  · obtain ⟨⟨rows, ok⟩, hrec, hok⟩ := checkRows_total req h (relevant_results results req)
    rw [Bool.not_eq_true] at hie
    refine ⟨⟨req.name, fmtTarget req, if ok then "PASS" else "FAIL",
      if ok then "All benchmarks meet requirement" else "Some benchmarks fail requirement",
      rows⟩, by simp [_check_requirement_compliance, hie, hrec], ?_, ?_⟩
    · intro hc; rw [hie] at hc; cases hc
    · intro _
      constructor
      · cases ok <;> simp
      · cases ok <;> simp_all

/-- `mapCheck` succeeds when every target is nonzero. -/
theorem mapCheck_total (results : List BenchmarkResult) :
    ∀ reqs : List PerformanceRequirement, (∀ r ∈ reqs, r.target.isZero = false) →
      ∃ es, mapCheck results reqs = some es := by
  intro reqs
  induction reqs with
  | nil => exact fun _ => ⟨[], rfl⟩
  | cons r rest ih =>
    intro hT
    obtain ⟨e, he, -, -⟩ := check_total r (hT r (by simp)) results
    obtain ⟨es, hes⟩ := ih fun x hx => hT x (by simp [hx])
    exact ⟨e :: es, by simp [mapCheck, he, hes]⟩

/-- C1 (amended: every requirement's target is nonzero, so that the margin
computation cannot raise): for every requirement with at least one matching
result the status is `PASS` iff all matched results pass and `FAIL`
otherwise; `analyze_compliance` reports overall `FAIL` iff some
high-priority requirement has status `FAIL`, and `PASS` in every other case;
every requirement `parse_requirements` builds has priority `'high'`. -/
theorem C1_requirement_and_overall_status (reqs : List PerformanceRequirement)
    (results : List BenchmarkResult)
    (hT : ∀ r ∈ reqs, r.target.isZero = false) :
    (∀ r ∈ reqs, (relevant_results results r).isEmpty = false →
      ∃ e, _check_requirement_compliance results r = some e ∧
        (e.status = "PASS" ∨ e.status = "FAIL") ∧
        (e.status = "PASS" ↔
          ∀ b ∈ relevant_results results r, _evaluate_result r b = true)) ∧
    (∃ rep, analyze_compliance reqs results = some rep ∧
      (rep.overall_status = "FAIL" ↔
        ∃ p ∈ reqs.zip rep.requirements, p.1.priority = "high" ∧ p.2.status = "FAIL") ∧
      (rep.overall_status = "FAIL" ∨ rep.overall_status = "PASS")) ∧
    (∀ doc : String, ∀ r ∈ parse_requirements doc, r.priority = "high") := by
  refine ⟨?_, ?_, ?_⟩
  · intro r hr hne
    obtain ⟨e, he, -, hspec⟩ := check_total r (hT r hr) results
    exact ⟨e, he, (hspec hne).1, (hspec hne).2⟩
  · obtain ⟨es, hes⟩ := mapCheck_total results reqs hT
    refine ⟨⟨if (reqs.zip es).any
        (fun p => p.2.status == "FAIL" && p.1.priority == "high") then "FAIL" else "PASS",
      es, ⟨reqs.length, es.countP (·.status == "PASS"), es.countP (·.status == "FAIL"),
        es.countP (fun e => !(e.status == "PASS") && !(e.status == "FAIL"))⟩⟩,
      by simp [analyze_compliance, hes], ?_, ?_⟩
    · by_cases hc : (reqs.zip es).any
          (fun p => p.2.status == "FAIL" && p.1.priority == "high") = true
      · simp only [hc, if_true]
        simp only [List.any_eq_true, Bool.and_eq_true, beq_iff_eq] at hc
        obtain ⟨p, hp, h1, h2⟩ := hc
        exact ⟨fun _ => ⟨p, hp, h2, h1⟩, fun _ => by trivial⟩
      · rw [Bool.not_eq_true] at hc
        simp only [hc, if_false]
        simp only [List.any_eq_false, Bool.and_eq_true, beq_iff_eq] at hc
        constructor
        · intro hcontra; simp at hcontra
        · rintro ⟨p, hp, h1, h2⟩
          exact absurd ⟨h2, h1⟩ (hc p hp)
    · by_cases hc : (reqs.zip es).any
          (fun p => p.2.status == "FAIL" && p.1.priority == "high") = true
      · simp [hc]
      · rw [Bool.not_eq_true] at hc; simp [hc]
  · intro doc r hr
    simp only [parse_requirements, List.mem_append, List.mem_map] at hr
    rcases hr with ((((⟨v, -, rfl⟩ | ⟨v, -, rfl⟩) | ⟨v, -, rfl⟩) | ⟨v, -, rfl⟩) | ⟨v, -, rfl⟩) <;> rfl

/-- C1 witness for the amended theorem, at one nonzero-target requirement
and one matching failing result. -/
theorem C1_requirement_and_overall_status_witness :
    (∀ r ∈ [(⟨"response_time", "response_time", ⟨100, 1⟩, "ms", "high"⟩ :
        PerformanceRequirement)], r.target.isZero = false) ∧
    (∃ rep, analyze_compliance
        [⟨"response_time", "response_time", ⟨100, 1⟩, "ms", "high"⟩]
        [⟨"latencyTest", "avgt", 150, "ms", 0⟩] = some rep ∧
      (rep.overall_status = "FAIL" ↔
        ∃ p ∈ List.zip [(⟨"response_time", "response_time", ⟨100, 1⟩, "ms", "high"⟩ :
            PerformanceRequirement)] rep.requirements,
          p.1.priority = "high" ∧ p.2.status = "FAIL") ∧
      (rep.overall_status = "FAIL" ∨ rep.overall_status = "PASS")) :=
  ⟨by decide,
   (C1_requirement_and_overall_status _ [⟨"latencyTest", "avgt", 150, "ms", 0⟩]
     (by decide)).2.1⟩

/-! ### Substring-containment lemmas -/

theorem containsL_iff_infix {m l : List Char} : containsL m l = true ↔ m <:+: l := by
  induction l with
  | nil => simp [containsL, List.isEmpty_iff]
  | cons c t ih =>
    simp [containsL, ih, List.infix_cons_iff, List.isPrefixOf_iff_prefix]

theorem containsL_eq_false_iff {m l : List Char} : containsL m l = false ↔ ¬ m <:+: l := by
  rw [← containsL_iff_infix]
  cases h : containsL m l <;> simp

theorem prefix_append_cases {α : Type} {l a b : List α} (h : l <+: a ++ b) :
    l <+: a ∨ (a <+: l ∧ l.drop a.length <+: b) := by
  induction a generalizing l with
  | nil => exact Or.inr ⟨List.nil_prefix, by simpa using h⟩
  | cons x xs ih =>
    cases l with
    | nil => exact Or.inl List.nil_prefix
    | cons y ys =>
      rw [List.cons_append, List.cons_prefix_cons] at h
      obtain ⟨rfl, h2⟩ := h
      rcases ih h2 with h3 | ⟨h3, h4⟩
      · exact Or.inl (List.cons_prefix_cons.mpr ⟨rfl, h3⟩)
      · exact Or.inr ⟨List.cons_prefix_cons.mpr ⟨rfl, h3⟩, by simpa using h4⟩

theorem suffix_append_cases {α : Type} {s a b : List α} (h : s <:+ a ++ b) :
    s <:+ b ∨ ∃ a1, a1 <:+ a ∧ a1 ≠ [] ∧ s = a1 ++ b := by
  induction a with
  | nil => exact Or.inl (by simpa using h)
  | cons x xs ih =>
    rw [List.cons_append] at h
    rcases List.suffix_cons_iff.mp h with h1 | h1
    · exact Or.inr ⟨x :: xs, List.suffix_refl _, by simp, by simpa using h1⟩
    · rcases ih h1 with h2 | ⟨a1, h2, h3, h4⟩
      · exact Or.inl h2
      · exact Or.inr ⟨a1, h2.trans (List.suffix_cons x xs), h3, h4⟩

theorem infix_append_cases {α : Type} {m a b : List α} (h : m <:+: a ++ b) :
    m <:+: a ∨ m <:+: b ∨
      ∃ i, 0 < i ∧ i < m.length ∧ m.take i <:+ a ∧ m.drop i <+: b := by
  obtain ⟨t, hpre, hsuf⟩ := List.infix_iff_prefix_suffix.mp h
  rcases suffix_append_cases hsuf with h1 | ⟨a1, ha1, hne, rfl⟩
  · exact Or.inr (Or.inl (List.infix_iff_prefix_suffix.mpr ⟨t, hpre, h1⟩))
  · rcases prefix_append_cases hpre with h2 | ⟨h2, h3⟩
    · exact Or.inl (List.infix_iff_prefix_suffix.mpr ⟨a1, h2, ha1⟩)
    · by_cases hlen : m.length ≤ a1.length
      · have heq : a1 = m := h2.eq_of_length_le hlen
        subst heq
        exact Or.inl ha1.isInfix
      · push_neg at hlen
        refine Or.inr (Or.inr ⟨a1.length, List.length_pos.mpr hne, hlen, ?_, h3⟩)
        have heq : m.take a1.length = a1 := (List.prefix_iff_eq_take.mp h2).symm
        rw [heq]
        exact ha1

theorem containsL_append_eq_false {m a b : List Char}
    (ha : containsL m a = false) (hb : containsL m b = false)
    (hstr : ∀ i, 0 < i → i < m.length → ¬(m.take i <:+ a ∧ m.drop i <+: b)) :
    containsL m (a ++ b) = false := by
  rw [containsL_eq_false_iff] at ha hb ⊢
  intro h
  rcases infix_append_cases h with h1 | h1 | ⟨i, h1, h2, h3, h4⟩
  exacts [ha h1, hb h1, hstr i h1 h2 ⟨h3, h4⟩]

theorem containsL_eq_false_of_not_mem {m l : List Char} {c : Char}
    (hc : c ∈ m) (hl : c ∉ l) : containsL m l = false := by
  rw [containsL_eq_false_iff]
  intro h
  exact hl (h.subset hc)

/-! ### Lemmas about `joinNL` -/

theorem joinNL_cons (x : String) {rest : List String} (hne : rest ≠ []) :
    joinNL (x :: rest) = x ++ "\n" ++ joinNL rest := by
  cases rest with
  | nil => exact absurd rfl hne
  | cons y t => rfl

theorem infix_joinNL {l : List String} {s : String} (h : s ∈ l) :
    s.data <:+: (joinNL l).data := by
  induction l with
  | nil => cases h
  | cons x rest ih =>
    rcases List.mem_cons.mp h with rfl | h1
    · cases rest with
      | nil => exact List.infix_rfl
      | cons y t =>
        rw [joinNL_cons _ (by simp), String.data_append, String.data_append]
        exact ((List.prefix_append _ _).trans (List.prefix_append _ _)).isInfix
    · have hne : rest ≠ [] := List.ne_nil_of_mem h1
      rw [joinNL_cons _ hne, String.data_append]
      exact (ih h1).trans (List.suffix_append _ _).isInfix

theorem containsL_joinNL_eq_false {m : List Char} (hm : m ≠ [])
    (hnl : ('\n' : Char) ∉ m) {l : List String}
    (h : ∀ s ∈ l, containsL m s.data = false) :
    containsL m (joinNL l).data = false := by
  induction l with
  | nil =>
    rw [containsL_eq_false_iff]
    intro hcon
    have : m <:+: ([] : List Char) := hcon
    exact hm (by simpa using this)
  | cons x rest ih =>
    cases rest with
    | nil => exact h x (by simp)
    | cons y t =>
      rw [joinNL_cons _ (by simp), String.data_append, String.data_append,
        List.append_assoc]
      have hx := h x (by simp)
      have hrest : containsL m (joinNL (y :: t)).data = false :=
        ih fun s hs => h s (List.mem_cons_of_mem _ hs)
      have hmid : containsL m ('\n' :: (joinNL (y :: t)).data) = false := by
        rw [containsL_eq_false_iff] at hrest ⊢
        intro hcon
        rcases List.infix_cons_iff.mp hcon with hpre | hinf
        · cases m with
          | nil => exact hm rfl
          | cons c cs =>
            rw [List.cons_prefix_cons] at hpre
            exact hnl (hpre.1 ▸ List.mem_cons_self _ _)
        · exact hrest hinf
      refine containsL_append_eq_false hx ?_ ?_
      · simpa using hmid
      · intro i hi hilen hconj
        obtain ⟨-, hdrop⟩ := hconj
        have hdne : m.drop i ≠ [] := by
          intro hd
          rw [List.drop_eq_nil_iff] at hd
          omega
        cases hd : m.drop i with
        | nil => exact hdne hd
        | cons c cs =>
          rw [hd] at hdrop
          have hdrop' : (c :: cs : List Char) <+: '\n' :: (joinNL (y :: t)).data := by
            simpa using hdrop
          rw [List.cons_prefix_cons] at hdrop'
          apply hnl
          rw [hdrop'.1.symm] at *
          exact List.drop_subset i m (hd ▸ List.mem_cons_self c cs)

/-! ### Character classes of the number formatters -/

theorem digitChar_isDigit {n : ℕ} (h : n < 10) : (digitChar n).isDigit = true := by
  interval_cases n <;> decide

theorem natCharsAux_digits :
    ∀ fuel n, ∀ c ∈ natCharsAux fuel n, c.isDigit = true := by
  intro fuel
  induction fuel with
  | zero => intro n c hc; simp [natCharsAux] at hc
  | succ f ih =>
    intro n c hc
    rw [natCharsAux] at hc
    by_cases h : n < 10
    · rw [if_pos h] at hc
      simp at hc
      exact hc ▸ digitChar_isDigit h
    · rw [if_neg h] at hc
      rcases List.mem_append.mp hc with h1 | h1
      · exact ih _ _ h1
      · simp at h1
        exact h1 ▸ digitChar_isDigit (Nat.mod_lt _ (by omega))

theorem natStr_digits {n : ℕ} : ∀ c ∈ (natStr n).data, c.isDigit = true := by
  intro c hc
  exact natCharsAux_digits _ _ c hc

theorem isDigit_ne {c : Char} (h : c.isDigit = true) :
    c ≠ '*' ∧ c ≠ '#' ∧ c ≠ '\n' := by
  refine ⟨?_, ?_, ?_⟩ <;> rintro rfl <;> exact absurd h (by decide)

theorem natChars_digits {n : ℕ} : ∀ c ∈ natChars n, c.isDigit = true :=
  fun c hc => natCharsAux_digits _ _ c hc

theorem fmtPlus1_chars {q : PyFloat} :
    ∀ c ∈ (fmtPlus1 q).data, c.isDigit = true ∨ c = '+' ∨ c = '-' ∨ c = '.' := by
  intro c hc
  have e1 : ("-" : String).data = ['-'] := rfl
  have e2 : ("+" : String).data = ['+'] := rfl
  have e3 : ("." : String).data = ['.'] := rfl
  simp only [fmtPlus1, natStr, String.data_append] at hc
  split at hc <;>
    simp only [e1, e2, e3, String.data_append, List.mem_append, List.mem_cons,
      List.not_mem_nil, or_false, false_or] at hc <;>
    (repeat' rcases hc with hc | hc) <;>
    first
      | (exact Or.inl (natChars_digits _ hc))
      | decide

theorem fmt2_chars {q : PyFloat} :
    ∀ c ∈ (fmt2 q).data, c.isDigit = true ∨ c = '-' ∨ c = '.' := by
  intro c hc
  have e1 : ("-" : String).data = ['-'] := rfl
  have e3 : ("." : String).data = ['.'] := rfl
  have e4 : ("0" : String).data = ['0'] := rfl
  have e6 : ("" : String).data = ([] : List Char) := rfl
  simp only [fmt2, natStr, String.data_append] at hc
  split at hc <;> split at hc <;>
    simp only [e1, e3, e4, e6, String.data_append, List.mem_append, List.mem_cons,
      List.not_mem_nil, or_false, false_or] at hc <;>
    (repeat' rcases hc with hc | hc) <;>
    first
      | (exact Or.inl (natChars_digits _ hc))
      | decide

theorem fmtPyFloat_chars {q : PyFloat} :
    ∀ c ∈ (fmtPyFloat q).data, c.isDigit = true ∨ c = '-' ∨ c = '.' := by
  intro c hc
  have e1 : ("-" : String).data = ['-'] := rfl
  have e3 : ("." : String).data = ['.'] := rfl
  have e5 : (".0" : String).data = ['.', '0'] := rfl
  have e6 : ("" : String).data = ([] : List Char) := rfl
  simp only [fmtPyFloat, natStr, String.data_append] at hc
  split at hc <;> split at hc <;>
    simp only [e1, e3, e5, e6, String.data_append, List.mem_append, List.mem_cons,
      List.not_mem_nil, or_false, false_or] at hc <;>
    (repeat' rcases hc with hc | hc) <;>
    first
      | (exact Or.inl (natChars_digits _ hc))
      | decide

/-! ### The records `analyze_compliance` produces are well-behaved -/

theorem not_digitish_star_hash {c : Char}
    (h : c.isDigit = true ∨ c = '-' ∨ c = '.') : c ≠ '*' ∧ c ≠ '#' := by
  rcases h with h | rfl | rfl
  · exact ⟨(isDigit_ne h).1, (isDigit_ne h).2.1⟩
  · exact ⟨by decide, by decide⟩
  · exact ⟨by decide, by decide⟩

theorem unit_chars (m : String) :
    ('*' : Char) ∉ (_get_unit_for_requirement m).data ∧
    ('#' : Char) ∉ (_get_unit_for_requirement m).data := by
  unfold _get_unit_for_requirement
  split_ifs <;> exact ⟨by decide, by decide⟩

theorem fmtTarget_chars (req : PerformanceRequirement)
    (hu : ('*' : Char) ∉ req.unit.data ∧ ('#' : Char) ∉ req.unit.data) :
    ('*' : Char) ∉ (fmtTarget req).data ∧ ('#' : Char) ∉ (fmtTarget req).data := by
  unfold fmtTarget
  constructor <;> intro hmem <;>
    (simp only [String.data_append, List.mem_append] at hmem;
     rcases hmem with (hmem | hmem) | hmem)
  · exact absurd (fmtPyFloat_chars _ hmem) (by decide)
  · simp at hmem
  · exact hu.1 hmem
  · exact absurd (fmtPyFloat_chars _ hmem) (by decide)
  · simp at hmem
  · exact hu.2 hmem

theorem margin_chars {req : PerformanceRequirement} {res : BenchmarkResult}
    {mg : String} (hm : _calculate_margin req res = some mg) :
    ('*' : Char) ∉ mg.data ∧ ('#' : Char) ∉ mg.data := by
  unfold _calculate_margin at hm
  by_cases hz : req.target.isZero = true
  · simp [hz] at hm
  · rw [if_neg hz] at hm
    injection hm with hm
    subst hm
    constructor <;> intro hmem <;>
      (simp only [String.data_append, List.mem_append] at hmem;
       rcases hmem with hmem | hmem)
    · exact absurd (fmtPlus1_chars _ hmem) (by decide)
    · simp at hmem
    · exact absurd (fmtPlus1_chars _ hmem) (by decide)
    · simp at hmem

theorem value_chars {q : PyFloat} {u : String}
    (hu : ('*' : Char) ∉ u.data ∧ ('#' : Char) ∉ u.data) :
    ('*' : Char) ∉ (fmt2 q ++ " " ++ u).data ∧
    ('#' : Char) ∉ (fmt2 q ++ " " ++ u).data := by
  constructor <;> intro hmem <;>
    (simp only [String.data_append, List.mem_append] at hmem;
     rcases hmem with (hmem | hmem) | hmem)
  · exact absurd (fmt2_chars _ hmem) (by decide)
  · simp at hmem
  · exact hu.1 hmem
  · exact absurd (fmt2_chars _ hmem) (by decide)
  · simp at hmem
  · exact hu.2 hmem

theorem checkRows_rows_good {req : PerformanceRequirement} :
    ∀ {l : List BenchmarkResult} {rows : List ComplianceRow} {ok : Bool},
      (∀ b ∈ l, SanitizedResult b) → checkRows req l = some (rows, ok) →
      ∀ r ∈ rows, RowGood r := by
  intro l
  induction l with
  | nil =>
    intro rows ok _ heq
    simp [checkRows] at heq
    rw [heq.1]
    simp
  | cons b rest ih =>
    intro rows ok hl heq
    rw [checkRows] at heq
    cases hm : _calculate_margin req b with
    | none => rw [hm] at heq; cases heq
    | some mg =>
      rw [hm] at heq
      cases hr : checkRows req rest with
      | none => rw [hr] at heq; cases heq
      | some pr =>
        obtain ⟨rows', ok'⟩ := pr
        rw [hr] at heq
        simp only [Option.some.injEq, Prod.mk.injEq] at heq
        obtain ⟨h1, -⟩ := heq
        intro r hr2
        rw [← h1] at hr2
        rcases List.mem_cons.mp hr2 with rfl | hmem
        · obtain ⟨hb1, hb2, hu1, hu2⟩ := hl b (by simp)
          exact ⟨⟨hb1, hb2⟩, value_chars ⟨hu1, hu2⟩, margin_chars hm⟩
        · exact ih (fun x hx => hl x (List.mem_cons_of_mem _ hx)) hr r hmem

theorem check_entry_good {req : PerformanceRequirement} {results : List BenchmarkResult}
    {e : ComplianceEntry} (hshape : ParseShaped req)
    (hres : ∀ b ∈ results, SanitizedResult b)
    (heq : _check_requirement_compliance results req = some e) : EntryGood e := by
  obtain ⟨hname, hmet, hunit, -⟩ := hshape
  have huc : ('*' : Char) ∉ req.unit.data ∧ ('#' : Char) ∉ req.unit.data := by
    rw [hunit]; exact unit_chars _
  unfold _check_requirement_compliance at heq
  by_cases hie : (relevant_results results req).isEmpty = true
  · rw [if_pos hie] at heq
    injection heq with heq
    subst heq
    refine ⟨hname ▸ hmet, fmtTarget_chars req huc, Or.inr (Or.inr rfl),
      Or.inr (Or.inr rfl), fun h => by simp at h, by simp⟩
  · rw [if_neg hie] at heq
    cases hr : checkRows req (relevant_results results req) with
    | none => rw [hr] at heq; cases heq
    | some pr =>
      obtain ⟨rows, ok⟩ := pr
      rw [hr] at heq
      injection heq with heq
      subst heq
      have hrowsgood : ∀ r ∈ rows, RowGood r :=
        checkRows_rows_good
          (fun b hb => hres b (List.mem_of_mem_filter hb)) hr
      cases ok with
      | true =>
        exact ⟨hname ▸ hmet, fmtTarget_chars req huc, Or.inl rfl, Or.inl rfl,
          fun h => by simp at h, hrowsgood⟩
      | false =>
        exact ⟨hname ▸ hmet, fmtTarget_chars req huc, Or.inr (Or.inl rfl),
          Or.inr (Or.inl rfl), fun _ => rfl, hrowsgood⟩

theorem mapCheck_entries_good {results : List BenchmarkResult}
    (hres : ∀ b ∈ results, SanitizedResult b) :
    ∀ {reqs : List PerformanceRequirement} {es : List ComplianceEntry},
      (∀ r ∈ reqs, ParseShaped r) → mapCheck results reqs = some es →
      ∀ e ∈ es, EntryGood e := by
  intro reqs
  induction reqs with
  | nil =>
    intro es _ heq
    simp [mapCheck] at heq
    rw [heq]
    simp
  | cons r rest ih =>
    intro es hshape heq
    rw [mapCheck] at heq
    cases hc : _check_requirement_compliance results r with
    | none => rw [hc] at heq; cases heq
    | some e0 =>
      rw [hc] at heq
      cases hm : mapCheck results rest with
      | none => rw [hm] at heq; cases heq
      | some es' =>
        rw [hm] at heq
        injection heq with heq
        subst heq
        intro e he
        rcases List.mem_cons.mp he with rfl | hmem
        · exact check_entry_good (hshape r (by simp)) hres hc
        · exact ih (fun x hx => hshape x (List.mem_cons_of_mem _ hx)) hm e hmem

theorem analyze_inv {reqs : List PerformanceRequirement}
    {results : List BenchmarkResult} {rep : ComplianceReport}
    (h : analyze_compliance reqs results = some rep) :
    ∃ es, mapCheck results reqs = some es ∧ rep.requirements = es ∧
      (rep.overall_status = "FAIL" ∨ rep.overall_status = "PASS") := by
  unfold analyze_compliance at h
  cases hm : mapCheck results reqs with
  | none => rw [hm] at h; cases h
  | some es =>
    rw [hm] at h
    injection h with h
    subst h
    refine ⟨es, rfl, rfl, ?_⟩
    by_cases hc : (reqs.zip es).any
        (fun p => p.2.status == "FAIL" && p.1.priority == "high") = true
    · simp [hc]
    · rw [Bool.not_eq_true] at hc; simp [hc]

/-! ### Decomposing membership in the generated report lines -/

theorem mem_entryLines {e : ComplianceEntry} {s : String} (h : s ∈ entryLines e) :
    (s = "### " ++ e.requirement ++ " " ++ statusEmoji e.status ∨ s = "" ∨
     s = "**Target**: " ++ e.target ∨ s = "**Status**: " ++ e.status ∨
     s = "**Message**: " ++ e.message ∨ s = "**Benchmark Results**:" ∨
     s = "| Benchmark | Value | Passes | Margin |" ∨
     s = "|-----------|-------|--------|--------|") ∨
    ∃ r ∈ e.results, s = "| " ++ r.benchmark ++ " | " ++ r.value ++ " | " ++
      (if r.passes then "✅" else "❌") ++ " | " ++ r.margin ++ " |" := by
  unfold entryLines at h
  rcases List.mem_append.mp h with h1 | h2
  · simp at h1; tauto
  · by_cases hie : e.results.isEmpty = true
    · rw [if_pos hie] at h2; cases h2
    · rw [if_neg hie] at h2
      rcases List.mem_append.mp h2 with h3 | h4
      · rcases List.mem_append.mp h3 with h5 | h6
        · simp at h5; tauto
        · rw [List.mem_map] at h6
          obtain ⟨r, hr, rfl⟩ := h6
          exact Or.inr ⟨r, hr, rfl⟩
      · simp at h4; tauto

theorem mem_reportLines {d : ComplianceReport} {s : String} (h : s ∈ reportLines d) :
    (s = "# Performance Requirement Compliance Report" ∨ s = "" ∨
     s = "**Overall Status**: " ++ d.overall_status ∨ s = "## Summary" ∨
     s = "- **Total Requirements**: " ++ natStr d.summary.total_requirements ∨
     s = "- **Passed**: " ++ natStr d.summary.passed ++ " ✅" ∨
     s = "- **Failed**: " ++ natStr d.summary.failed ++ " ❌" ∨
     s = "- **Not Tested**: " ++ natStr d.summary.not_tested ++ " ⚠️" ∨
     s = "## Detailed Results") ∨
    (∃ e ∈ d.requirements, s ∈ entryLines e) ∨
    ((d.requirements.filter (·.status == "FAIL")).isEmpty = false ∧
     (s = "## Recommendations" ∨ s = "" ∨
      s = "The following requirements are not being met:" ∨
      s = "Consider implementing performance optimizations or reviewing requirement targets." ∨
      ∃ e ∈ d.requirements.filter (·.status == "FAIL"),
        s = "- **" ++ e.requirement ++ "**: " ++ e.message)) := by
  unfold reportLines at h
  rcases List.mem_append.mp h with h1 | h2
  · rcases List.mem_append.mp h1 with h0 | hf
    · simp at h0; tauto
    · rw [List.mem_flatten] at hf
      obtain ⟨l, hl, hsl⟩ := hf
      rw [List.mem_map] at hl
      obtain ⟨e, he, rfl⟩ := hl
      exact Or.inr (Or.inl ⟨e, he, hsl⟩)
  · by_cases hfe : (d.requirements.filter (·.status == "FAIL")).isEmpty = true
    · rw [if_pos hfe] at h2; cases h2
    · rw [if_neg hfe] at h2
      refine Or.inr (Or.inr ⟨Bool.not_eq_true _ ▸ hfe, ?_⟩)
      rcases List.mem_append.mp h2 with h3 | h4
      · rcases List.mem_append.mp h3 with h5 | h6
        · simp at h5; tauto
        · rw [List.mem_map] at h6
          obtain ⟨e, he, rfl⟩ := h6
          exact Or.inr (Or.inr (Or.inr (Or.inr ⟨e, he, rfl⟩)))
      · simp at h4; tauto

/-! ### Per-line marker exclusion -/

theorem containsL_append_left_safe {m a b : List Char}
    (ha : containsL m a = false)
    (hstr : ∀ i, i < m.length → 0 < i → ¬ m.take i <:+ a)
    (hb : containsL m b = false) :
    containsL m (a ++ b) = false :=
  containsL_append_eq_false ha hb fun i h1 h2 hc => hstr i h2 h1 hc.1

/-- Star-containing markers cannot occur in a line made of a fixed prefix
with no marker occurrence or marker-prefix suffix, followed by star-free
text. -/
theorem containsL_lit_starfree {m a b : List Char} (hstar : ('*' : Char) ∈ m)
    (ha : containsL m a = false)
    (hstr : ∀ i, i < m.length → 0 < i → ¬ m.take i <:+ a)
    (hb : ('*' : Char) ∉ b) :
    containsL m (a ++ b) = false :=
  containsL_append_left_safe ha hstr (containsL_eq_false_of_not_mem hstar hb)

theorem no_star_natStr {n : ℕ} : ('*' : Char) ∉ (natStr n).data := fun hc =>
  absurd (natStr_digits _ hc) (by decide)

theorem no_hash_natStr {n : ℕ} : ('#' : Char) ∉ (natStr n).data := fun hc =>
  absurd (natStr_digits _ hc) (by decide)

theorem statusEmoji_chars (st : String) :
    ('*' : Char) ∉ (statusEmoji st).data ∧ ('#' : Char) ∉ (statusEmoji st).data := by
  unfold statusEmoji
  split_ifs <;> exact ⟨by decide, by decide⟩

theorem mem_metricNames {s : String} (h : s ∈ metricNames) :
    s = "response_time" ∨ s = "throughput" ∨ s = "memory_usage" ∨
      s = "cache_hit_ratio" ∨ s = "concurrent_ops" := by
  simp only [metricNames, List.mem_cons, List.not_mem_nil, or_false] at h
  exact h

theorem metricName_chars {s : String} (h : s ∈ metricNames) :
    ('*' : Char) ∉ s.data ∧ ('#' : Char) ∉ s.data := by
  rcases mem_metricNames h with rfl | rfl | rfl | rfl | rfl <;>
    exact ⟨by decide, by decide⟩

/-- No line of a FAIL report contains the `PASS` marker. -/
theorem line_no_passmark {d : ComplianceReport} (hov : d.overall_status = "FAIL")
    (hgood : ∀ e ∈ d.requirements, EntryGood e) :
    ∀ s ∈ reportLines d, containsL "**Overall Status**: PASS".data s.data = false := by
  intro s hs
  have hstar : ('*' : Char) ∈ "**Overall Status**: PASS".data := by decide
  rcases mem_reportLines hs with hsk | ⟨e, he, hse⟩ | ⟨hne, hrec⟩
  · rcases hsk with rfl | rfl | rfl | rfl | rfl | rfl | rfl | rfl | rfl
    · decide
    · decide
    · rw [hov]; decide
    · decide
    · rw [String.data_append]
      exact containsL_lit_starfree hstar (by decide) (by decide) no_star_natStr
    · rw [String.data_append, String.data_append, List.append_assoc]
      refine containsL_lit_starfree hstar (by decide) (by decide) ?_
      intro hc
      rcases List.mem_append.mp hc with hc | hc
      · exact no_star_natStr hc
      · exact absurd hc (by decide)
    · rw [String.data_append, String.data_append, List.append_assoc]
      refine containsL_lit_starfree hstar (by decide) (by decide) ?_
      intro hc
      rcases List.mem_append.mp hc with hc | hc
      · exact no_star_natStr hc
      · exact absurd hc (by decide)
    · rw [String.data_append, String.data_append, List.append_assoc]
      refine containsL_lit_starfree hstar (by decide) (by decide) ?_
      intro hc
      rcases List.mem_append.mp hc with hc | hc
      · exact no_star_natStr hc
      · exact absurd hc (by decide)
    · decide
  · obtain ⟨hmet, htgt, hst, hmsg, -, hrows⟩ := hgood e he
    rcases mem_entryLines hse with hsk | ⟨r, hr, rfl⟩
    · rcases hsk with rfl | rfl | rfl | rfl | rfl | rfl | rfl | rfl
      · -- ### name emoji : star-free line
        apply containsL_eq_false_of_not_mem hstar
        intro hc
        simp only [String.data_append, List.mem_append] at hc
        rcases hc with ((hc | hc) | hc) | hc
        · exact absurd hc (by decide)
        · exact (metricName_chars hmet).1 hc
        · exact absurd hc (by decide)
        · exact (statusEmoji_chars e.status).1 hc
      · decide
      · rw [String.data_append]
        exact containsL_lit_starfree hstar (by decide) (by decide) htgt.1
      · rcases hst with hst | hst | hst <;> rw [String.data_append, hst] <;> decide
      · rcases hmsg with hmsg | hmsg | hmsg <;> rw [String.data_append, hmsg] <;> decide
      · decide
      · decide
      · decide
    · -- table row: star-free line
      obtain ⟨hbch, hval, hmg⟩ := hrows r hr
      have hicon : ('*' : Char) ∉ ((if r.passes then "✅" else "❌") : String).data := by
        split <;> decide
      apply containsL_eq_false_of_not_mem hstar
      intro hc
      simp only [String.data_append, List.mem_append] at hc
      rcases hc with (((((((hc | hc) | hc) | hc) | hc) | hc) | hc) | hc) | hc
      · exact absurd hc (by decide)
      · exact hbch.1 hc
      · exact absurd hc (by decide)
      · exact hval.1 hc
      · exact absurd hc (by decide)
      · exact hicon hc
      · exact absurd hc (by decide)
      · exact hmg.1 hc
      · exact absurd hc (by decide)
  · rcases hrec with rfl | rfl | rfl | rfl | ⟨e, he, rfl⟩
    · decide
    · decide
    · decide
    · decide
    · have hef := List.mem_filter.mp he
      obtain ⟨hmet, -, -, -, hfm, -⟩ := hgood e hef.1
      have hmsg : e.message = "Some benchmarks fail requirement" :=
        hfm (by simpa using hef.2)
      rcases mem_metricNames hmet with hm | hm | hm | hm | hm <;>
        (rw [String.data_append, String.data_append, hm, hmsg]; decide)

/-- No line of a report without failed requirements contains
`## Recommendations`. -/
theorem line_no_recmark {d : ComplianceReport}
    (hov : d.overall_status = "FAIL" ∨ d.overall_status = "PASS")
    (hgood : ∀ e ∈ d.requirements, EntryGood e)
    (hnofail : (d.requirements.filter (·.status == "FAIL")).isEmpty = true) :
    ∀ s ∈ reportLines d, containsL "## Recommendations".data s.data = false := by
  intro s hs
  have hhash : ('#' : Char) ∈ "## Recommendations".data := by decide
  rcases mem_reportLines hs with hsk | ⟨e, he, hse⟩ | ⟨hne, -⟩
  · rcases hsk with rfl | rfl | rfl | rfl | rfl | rfl | rfl | rfl | rfl
    · decide
    · decide
    · rcases hov with hov | hov <;> (rw [String.data_append, hov]; decide)
    · decide
    · apply containsL_eq_false_of_not_mem hhash
      intro hc
      simp only [String.data_append, List.mem_append] at hc
      rcases hc with hc | hc
      · exact absurd hc (by decide)
      · exact no_hash_natStr hc
    · apply containsL_eq_false_of_not_mem hhash
      intro hc
      simp only [String.data_append, List.mem_append] at hc
      rcases hc with (hc | hc) | hc
      · exact absurd hc (by decide)
      · exact no_hash_natStr hc
      · exact absurd hc (by decide)
    · apply containsL_eq_false_of_not_mem hhash
      intro hc
      simp only [String.data_append, List.mem_append] at hc
      rcases hc with (hc | hc) | hc
      · exact absurd hc (by decide)
      · exact no_hash_natStr hc
      · exact absurd hc (by decide)
    · apply containsL_eq_false_of_not_mem hhash
      intro hc
      simp only [String.data_append, List.mem_append] at hc
      rcases hc with (hc | hc) | hc
      · exact absurd hc (by decide)
      · exact no_hash_natStr hc
      · exact absurd hc (by decide)
    · decide
  · obtain ⟨hmet, htgt, hst, hmsg, -, hrows⟩ := hgood e he
    rcases mem_entryLines hse with hsk | ⟨r, hr, rfl⟩
    · rcases hsk with rfl | rfl | rfl | rfl | rfl | rfl | rfl | rfl
      · rcases mem_metricNames hmet with hm | hm | hm | hm | hm <;>
          rcases hst with hst | hst | hst <;>
          (rw [String.data_append, String.data_append, String.data_append, hm, hst]; decide)
      · decide
      · apply containsL_eq_false_of_not_mem hhash
        intro hc
        simp only [String.data_append, List.mem_append] at hc
        rcases hc with hc | hc
        · exact absurd hc (by decide)
        · exact htgt.2 hc
      · rcases hst with hst | hst | hst <;> (rw [String.data_append, hst]; decide)
      · rcases hmsg with hmsg | hmsg | hmsg <;> (rw [String.data_append, hmsg]; decide)
      · decide
      · decide
      · decide
    · obtain ⟨hbch, hval, hmg⟩ := hrows r hr
      have hicon : ('#' : Char) ∉ ((if r.passes then "✅" else "❌") : String).data := by
        split <;> decide
      apply containsL_eq_false_of_not_mem hhash
      intro hc
      simp only [String.data_append, List.mem_append] at hc
      rcases hc with (((((((hc | hc) | hc) | hc) | hc) | hc) | hc) | hc) | hc
      · exact absurd hc (by decide)
      · exact hbch.2 hc
      · exact absurd hc (by decide)
      · exact hval.2 hc
      · exact absurd hc (by decide)
      · exact hicon hc
      · exact absurd hc (by decide)
      · exact hmg.2 hc
      · exact absurd hc (by decide)
  · rw [hnofail] at hne; cases hne

theorem joinNL_head_prefix_of (x : String) (l : List String) :
    x.data <+: (joinNL (x :: l)).data := by
  cases l with
  | nil => exact List.prefix_refl _
  | cons y t =>
    rw [joinNL_cons _ (by simp), String.data_append, String.data_append]
    exact (List.prefix_append _ _).trans (List.prefix_append _ _)

/-- C8 counterexample: the claim as stated quantifies over every
`analyze_compliance` output, but a benchmark whose JSON name embeds the
literal PASS marker is echoed into the report table, so a FAIL report
extracts as PASS — the textual round-trip breaks. -/
theorem C8_counterexample :
    (analyze_compliance [⟨"response_time", "response_time", ⟨100, 1⟩, "ms", "high"⟩]
      [⟨"latency **Overall Status**: PASS", "avgt", 150, "ms", 0⟩]).map
      (fun rep => (rep.overall_status, _extract_performance_status (generate_report rep))) =
    some ("FAIL", "PASS") := by
  decide

/-- C8 (amended: requirements shaped as `parse_requirements` builds them
with nonzero targets, and benchmark names and units free of `*` and `#`):
the report starts with the fixed heading, contains the Summary and Detailed
Results sections, contains a Recommendations section iff some requirement
failed, contains the literal overall-status line, and
`_extract_performance_status` recovers exactly the overall status. -/
theorem C8_report_wire_format (reqs : List PerformanceRequirement)
    (results : List BenchmarkResult)
    (hreq : ∀ r ∈ reqs, ParseShaped r)
    (hres : ∀ b ∈ results, SanitizedResult b)
    (rep : ComplianceReport)
    (hrep : analyze_compliance reqs results = some rep) :
    "# Performance Requirement Compliance Report".data <+: (generate_report rep).data ∧
    containsS (generate_report rep) "## Summary" = true ∧
    containsS (generate_report rep) "## Detailed Results" = true ∧
    (containsS (generate_report rep) "## Recommendations" = true ↔
      ∃ e ∈ rep.requirements, e.status = "FAIL") ∧
    containsS (generate_report rep) ("**Overall Status**: " ++ rep.overall_status) = true ∧
    _extract_performance_status (generate_report rep) = rep.overall_status := by
  obtain ⟨es, hmc, hreqs, hov⟩ := analyze_inv hrep
  have hgood : ∀ e ∈ rep.requirements, EntryGood e := by
    rw [hreqs]
    exact mapCheck_entries_good hres hreq hmc
  have hmem : ∀ {t : String}, t ∈ reportLines rep →
      containsS (generate_report rep) t = true := by
    intro t ht
    exact containsL_iff_infix.mpr (infix_joinNL ht)
  refine ⟨joinNL_head_prefix_of _ _, hmem (by simp [reportLines]),
    hmem (by simp [reportLines]), ?_, hmem (by simp [reportLines]), ?_⟩
  · by_cases hf : (rep.requirements.filter (·.status == "FAIL")).isEmpty = true
    · have hnone : containsS (generate_report rep) "## Recommendations" = false :=
        containsL_joinNL_eq_false (by decide) (by decide) (line_no_recmark hov hgood hf)
      rw [hnone]
      rw [List.isEmpty_iff, List.filter_eq_nil_iff] at hf
      constructor
      · intro hc; cases hc
      · rintro ⟨e, he, hef⟩
        exact absurd (by simp [hef] : (e.status == "FAIL") = true) (hf e he)
    · have hin : ("## Recommendations" : String) ∈ reportLines rep := by
        unfold reportLines
        refine List.mem_append.mpr (Or.inr ?_)
        rw [if_neg hf]
        simp
      rw [Bool.not_eq_true, List.isEmpty_eq_false] at hf
      obtain ⟨e, he⟩ := List.exists_mem_of_ne_nil _ hf
      have hef := List.mem_filter.mp he
      refine iff_of_true (hmem hin) ⟨e, hef.1, by simpa using hef.2⟩
  · have hline : containsS (generate_report rep)
        ("**Overall Status**: " ++ rep.overall_status) = true :=
      hmem (by simp [reportLines])
    rcases hov with hov | hov
    · have hnp : containsS (generate_report rep) "**Overall Status**: PASS" = false :=
        containsL_joinNL_eq_false (by decide) (by decide) (line_no_passmark hov hgood)
      have hfp : containsS (generate_report rep) "**Overall Status**: FAIL" = true := by
        rw [hov] at hline
        exact hline
      rw [hov]
      unfold _extract_performance_status
      rw [hnp, hfp]
      simp
    · have hpp : containsS (generate_report rep) "**Overall Status**: PASS" = true := by
        rw [hov] at hline
        exact hline
      rw [hov]
      unfold _extract_performance_status
      rw [hpp]
      simp

/-- C8 witness for the amended theorem at a single passing requirement. -/
theorem C8_report_wire_format_witness :
    (∀ r ∈ [(⟨"response_time", "response_time", ⟨100, 1⟩, "ms", "high"⟩ :
        PerformanceRequirement)], ParseShaped r) ∧
    (∀ b ∈ [(⟨"latencyTest", "avgt", 50, "ms", 0⟩ : BenchmarkResult)],
      SanitizedResult b) ∧
    analyze_compliance [⟨"response_time", "response_time", ⟨100, 1⟩, "ms", "high"⟩]
        [⟨"latencyTest", "avgt", 50, "ms", 0⟩] =
      some ⟨"PASS", [⟨"response_time", "100.0 ms", "PASS",
        "All benchmarks meet requirement",
        [⟨"latencyTest", "50.00 ms", true, "+50.0%"⟩]⟩], ⟨1, 1, 0, 0⟩⟩ ∧
    _extract_performance_status (generate_report
      ⟨"PASS", [⟨"response_time", "100.0 ms", "PASS",
        "All benchmarks meet requirement",
        [⟨"latencyTest", "50.00 ms", true, "+50.0%"⟩]⟩], ⟨1, 1, 0, 0⟩⟩) =
      (⟨"PASS", [⟨"response_time", "100.0 ms", "PASS",
        "All benchmarks meet requirement",
        [⟨"latencyTest", "50.00 ms", true, "+50.0%"⟩]⟩], ⟨1, 1, 0, 0⟩⟩ :
        ComplianceReport).overall_status := by
  refine ⟨?_, ?_, by decide, ?_⟩
  · intro r hr
    simp only [List.mem_singleton] at hr
    subst hr
    exact ⟨rfl, by decide, by decide, by decide⟩
  · intro b hb
    simp only [List.mem_singleton] at hb
    subst hb
    exact ⟨by decide, by decide, by decide, by decide⟩
  · exact (C8_report_wire_format
      [⟨"response_time", "response_time", ⟨100, 1⟩, "ms", "high"⟩]
      [⟨"latencyTest", "avgt", 50, "ms", 0⟩]
      (fun r hr => by
        simp only [List.mem_singleton] at hr
        subst hr
        exact ⟨rfl, by decide, by decide, by decide⟩)
      (fun b hb => by
        simp only [List.mem_singleton] at hb
        subst hb
        exact ⟨by decide, by decide, by decide, by decide⟩)
      _ (by decide)).2.2.2.2.2

/-- C6 counterexample: for a report lacking a `**Generated**:` line the
timestamp falls back to the wall clock, so two runs at different instants
(`"A"` and `"AB"` as the `datetime.now().isoformat()` values) produce
different HTML. -/
theorem C6_counterexample : dashPipeline "A" "" ≠ dashPipeline "AB" "" := by
  intro h
  have hA : parse_compliance_report "" "A" =
      ⟨"A", "UNKNOWN", ⟨0, 0, 0, 0, 0⟩, [], [], []⟩ := by decide
  have hB : parse_compliance_report "" "AB" =
      ⟨"AB", "UNKNOWN", ⟨0, 0, 0, 0, 0⟩, [], [], []⟩ := by decide
  rw [dashPipeline, dashPipeline, hA, hB] at h
  have hlen := congrArg String.length h
  simp only [_generate_html, _generate_header, _generate_summary_cards,
    _generate_category_details, _generate_risks_section,
    _generate_recommendations_section, _generate_javascript,
    String.length_append] at hlen
  rw [show ("A" : String).length = 1 from rfl,
    show ("AB" : String).length = 2 from rfl] at hlen
  omega

/-- C6 (amended): the dashboard pipeline is deterministic for every report
that contains a `**Generated**:` line (the timestamp regex matches): two
runs at different wall-clock instants produce byte-identical HTML.  For
reports lacking the line the output embeds the current time and two runs
differ — see the counterexample. -/
theorem C6_dashboard_deterministic (content now1 now2 : String)
    (h : (searchLineCapture ("**Generated**:".data) content.data).isSome = true) :
    dashPipeline now1 content = dashPipeline now2 content := by
  have hp : parse_compliance_report content now1 = parse_compliance_report content now2 := by
    unfold parse_compliance_report _extract_timestamp
    obtain ⟨v, hv⟩ := Option.isSome_iff_exists.mp h
    rw [hv]
    rfl
  exact congrArg _generate_html hp

/-- C6 witness at a report that carries a `**Generated**:` line. -/
theorem C6_dashboard_deterministic_witness :
    ((searchLineCapture ("**Generated**:".data)
      ("**Generated**: 2024-01-01T00:00:00\n**Overall Status**: PASS").data).isSome = true) ∧
    dashPipeline "A" "**Generated**: 2024-01-01T00:00:00\n**Overall Status**: PASS" =
      dashPipeline "B" "**Generated**: 2024-01-01T00:00:00\n**Overall Status**: PASS" :=
  ⟨by decide, C6_dashboard_deterministic _ "A" "B" (by decide)⟩
